import Mathlib

/-!
Formal model of the SAI host-interface trap / table-entry engine.

The data model (enums, attribute flags, accepted object types, defaults)
is embedded from src/SAI/underlay/saihostif.h and
src/SAI/underlay/sairouterinterface.h.  The repository is header-only:
the runtime engine (registry, create/remove/set/get operations, the
Resolve algorithm) is declared but not implemented in src, so those
operations are modelled from the specification (spec.md sections 3, 4
and 7) and marked as such in their doc comments.
-/

namespace SAI

/-- Attribute flags, from the @flags annotations in the headers. -/
inductive SaiAttrFlag
  | MANDATORY_ON_CREATE
  | CREATE_ONLY
  | CREATE_AND_SET
  | KEY
deriving DecidableEq, Repr

/-- Object type tags carried by handles.  The trap/table object kinds come
from saihostif.h and sairouterinterface.h; the external kinds (policer,
port, lag, vlan, system port, virtual router) are the object types named
in the @objects annotations of the headers. -/
inductive ObjType
  | policer
  | port
  | lag
  | vlan
  | systemPort
  | virtualRouter
  | trapGroup
  | trap
  | hostif
  | tableEntry
  | routerIf
deriving DecidableEq, Repr

/-- Kinds of external collaborator objects (referenced by @objects lists in
the headers but owned outside this engine). -/
inductive ExtKind
  | policer
  | port
  | lag
  | vlan
  | systemPort
  | virtualRouter
deriving DecidableEq, Repr

def ExtKind.toObjType : ExtKind → ObjType
  | .policer => .policer
  | .port => .port
  | .lag => .lag
  | .vlan => .vlan
  | .systemPort => .systemPort
  | .virtualRouter => .virtualRouter

/-- Modelled from the spec: section 3 — a handle encoding a slot, a
generation counter (preventing stale-handle reuse after destruction) and a
type tag.  sai_object_id_t itself is declared in saitypes.h, which is not
in src. -/
structure Handle where
  slot : Nat
  generation : Nat
  tag : ObjType
deriving DecidableEq, Repr

/-- sai_hostif_trap_type_t, saihostif.h lines 162-219. -/
inductive sai_hostif_trap_type_t
  | LLDP
  | ARP_REQUEST
  | ARP_RESPONSE
  | IPV6_NEIGHBOR_DISCOVERY
  | IPV6_NEIGHBOR_SOLICITATION
  | IPV6_NEIGHBOR_ADVERTISEMENT
  | IP2ME
  | BGP
  | BGPV6
deriving DecidableEq, Repr

/-- Numeric values of sai_hostif_trap_type_t from saihostif.h. -/
def sai_hostif_trap_type_t.code : sai_hostif_trap_type_t → Nat
  | .LLDP => 0x00000003
  | .ARP_REQUEST => 0x00002000
  | .ARP_RESPONSE => 0x00002001
  | .IPV6_NEIGHBOR_DISCOVERY => 0x00002009
  | .IPV6_NEIGHBOR_SOLICITATION => 0x00002012
  | .IPV6_NEIGHBOR_ADVERTISEMENT => 0x00002013
  | .IP2ME => 0x00004000
  | .BGP => 0x00004003
  | .BGPV6 => 0x00004004

/-- Modelled from the spec: sai_packet_action_t is declared in saitypes.h,
which is not in src; spec section 3 lists the actions drop, forward, trap,
copy. -/
inductive sai_packet_action_t
  | DROP
  | FORWARD
  | TRAP
  | COPY
deriving DecidableEq, Repr

/-- sai_hostif_type_t, saihostif.h lines 327-338. -/
inductive sai_hostif_type_t
  | NETDEV
  | FD
  | GENETLINK
deriving DecidableEq, Repr

/-- sai_hostif_table_entry_type_t, saihostif.h lines 455-472. -/
inductive sai_hostif_table_entry_type_t
  | PORT
  | LAG
  | VLAN
  | TRAP_ID
  | WILDCARD
deriving DecidableEq, Repr

/-- sai_hostif_table_entry_channel_type_t, saihostif.h lines 477-497. -/
inductive sai_hostif_table_entry_channel_type_t
  | CB
  | FD
  | NETDEV_PHYSICAL_PORT
  | NETDEV_LOGICAL_PORT
  | NETDEV_L3
  | GENETLINK
deriving DecidableEq, Repr

/-- sai_router_interface_type_t, sairouterinterface.h lines 39-62. -/
inductive sai_router_interface_type_t
  | PORT
  | VLAN
  | LOOPBACK
  | MPLS_ROUTER
  | SUB_PORT
  | BRIDGE
  | QINQ_PORT
deriving DecidableEq, Repr

/-- Modelled from the spec: the error kinds of section 7, surfaced
synchronously by every operation. -/
inductive SaiError
  | InvalidReference
  | DuplicateKey
  | Immutable
  | InvalidValue
  | InUse (blocking : Handle)
  | NotFound
  | StaleHandle
deriving DecidableEq, Repr

/-- SAI_HOSTIF_NAME_SIZE, saihostif.h line 46. -/
def SAI_HOSTIF_NAME_SIZE : Nat := 16

/-- Modelled from the spec: the switch-wide minimum ACL priority that is the
default trap priority (default attrvalue
SAI_SWITCH_ATTR_ACL_ENTRY_MINIMUM_PRIORITY, saihostif.h line 254; the
switch header carrying the value is not in src). -/
def SAI_SWITCH_ATTR_ACL_ENTRY_MINIMUM_PRIORITY : Nat := 0

/-- TrapGroup record, fields from sai_hostif_trap_group_attr_t
(saihostif.h lines 56-103). -/
structure TrapGroup where
  admin_state : Bool
  queue_index : Nat
  policer : Option Handle
deriving DecidableEq, Repr

/-- Trap record, fields from sai_hostif_trap_attr_t
(saihostif.h lines 224-270). -/
structure Trap where
  trap_type : sai_hostif_trap_type_t
  packet_action : sai_packet_action_t
  priority : Nat
deriving DecidableEq, Repr

/-- HostInterface record, fields from sai_hostif_attr_t
(saihostif.h lines 343-398). -/
structure HostIf where
  kind : sai_hostif_type_t
  bound_object : Option Handle
  name : Option String
deriving DecidableEq, Repr

/-- TableEntry record, fields from sai_hostif_table_entry_attr_t
(saihostif.h lines 502-570). -/
structure TableEntry where
  entry_type : sai_hostif_table_entry_type_t
  match_object : Option Handle
  match_trap : Option Handle
  channel : sai_hostif_table_entry_channel_type_t
  target_host_interface : Option Handle
deriving DecidableEq, Repr

/-- RouterInterface record, fields from sai_router_interface_attr_t
(sairouterinterface.h lines 67-114). -/
structure RouterIf where
  virtual_router : Handle
  rif_type : sai_router_interface_type_t
  attachment : Option Handle
deriving DecidableEq, Repr

/-- A registry object: one of the five managed kinds, or an external
collaborator object (port, policer, ...). -/
inductive Obj
  | trapGroup (g : TrapGroup)
  | trap (t : Trap)
  | hostif (hi : HostIf)
  | tableEntry (te : TableEntry)
  | routerIf (r : RouterIf)
  | external (k : ExtKind)
deriving DecidableEq, Repr

def Obj.tag : Obj → ObjType
  | .trapGroup _ => .trapGroup
  | .trap _ => .trap
  | .hostif _ => .hostif
  | .tableEntry _ => .tableEntry
  | .routerIf _ => .routerIf
  | .external k => k.toObjType

/-- Modelled from the spec: one registry slot — a generation counter plus
the object currently stored there (none when free). -/
structure Slot where
  generation : Nat
  obj : Option Obj
deriving DecidableEq, Repr

/-- Modelled from the spec: the Object Registry state (section 4.1), the
sole owner of object storage. -/
structure State where
  slots : List Slot
deriving DecidableEq, Repr

/-- Modelled from the spec: get(handle) -> object | NotFound | StaleHandle
(section 4.1).  A generation mismatch is detected as StaleHandle; a
missing slot, a free slot or a tag mismatch is NotFound. -/
def get (s : State) (h : Handle) : Except SaiError Obj :=
  match s.slots.get? h.slot with
  | none => .error .NotFound
  | some sl =>
    if sl.generation = h.generation then
      match sl.obj with
      | none => .error .NotFound
      | some o => if o.tag = h.tag then .ok o else .error .NotFound
    else .error .StaleHandle

def isLive (s : State) (h : Handle) : Bool :=
  match get s h with
  | .ok _ => true
  | .error _ => false

/-- Modelled from the spec: allocation reuses the first free slot, keeping
its (already bumped) generation, or appends a fresh slot with generation
zero.  Returns the new slot list, the slot index and the generation. -/
def allocSlots : List Slot → Obj → List Slot × Nat × Nat
  | [], o => ([⟨0, some o⟩], 0, 0)
  | sl :: rest, o =>
    match sl.obj with
    | none => (⟨sl.generation, some o⟩ :: rest, 0, sl.generation)
    | some _ =>
      let r := allocSlots rest o
      (sl :: r.1, r.2.1 + 1, r.2.2)

/-- Modelled from the spec: store a new object and mint its handle. -/
def alloc (s : State) (o : Obj) : State × Handle :=
  let r := allocSlots s.slots o
  (⟨r.1⟩, ⟨r.2.1, r.2.2, o.tag⟩)

/-- Modelled from the spec: free slot i and bump its generation, so every
retained handle to it becomes detectably stale (section 4.1). -/
def destroySlots : List Slot → Nat → List Slot
  | [], _ => []
  | sl :: rest, 0 => ⟨sl.generation + 1, none⟩ :: rest
  | sl :: rest, n + 1 => sl :: destroySlots rest n

/-- Replace the object stored at slot i, keeping the generation (used by
set_attribute operations). -/
def setObjSlots : List Slot → Nat → Obj → List Slot
  | [], _, _ => []
  | sl :: rest, 0, o => ⟨sl.generation, some o⟩ :: rest
  | sl :: rest, n + 1, o => sl :: setObjSlots rest n o

/-- All live (handle, object) pairs, in slot order, starting at index n. -/
def livePairsAux : List Slot → Nat → List (Handle × Obj)
  | [], _ => []
  | sl :: rest, n =>
    (match sl.obj with
     | some o => [(⟨n, sl.generation, o.tag⟩, o)]
     | none => []) ++ livePairsAux rest (n + 1)

def livePairs (s : State) : List (Handle × Obj) :=
  livePairsAux s.slots 0

/-- All live table entries with their handles, in slot order. -/
def liveEntries (s : State) : List (Handle × TableEntry) :=
  (livePairs s).filterMap fun p =>
    match p.2 with
    | .tableEntry te => some (p.1, te)
    | _ => none

/-- The handles an object holds references to (the reverse-reference index
of spec section 9). -/
def refsOf : Obj → List Handle
  | .trapGroup g => g.policer.toList
  | .trap _ => []
  | .hostif hi => hi.bound_object.toList
  | .tableEntry te =>
    te.match_object.toList ++ te.match_trap.toList ++
      te.target_host_interface.toList
  | .routerIf r => r.virtual_router :: r.attachment.toList
  | .external _ => []

/-- Modelled from the spec: destroy(handle) -> Ok | NotFound |
InUse(referencing handle) (sections 3 and 4.1): destruction fails while
any live object still references the handle, and a successful destroy
bumps the slot generation. -/
def destroy (s : State) (h : Handle) : Except SaiError State :=
  match get s h with
  | .error .StaleHandle => .error .NotFound
  | .error e => .error e
  | .ok _ =>
    match (livePairs s).find? (fun p => decide (h ∈ refsOf p.2)) with
    | some p => .error (.InUse p.1)
    | none => .ok ⟨destroySlots s.slots h.slot⟩

/-- Seed an external collaborator object (port, policer, ...) into the
registry.  These objects are owned outside the engine; this models their
existence for reference checks. -/
def addExternal (s : State) (k : ExtKind) : State × Handle :=
  alloc s (.external k)

/-- Check an optional reference field: the handle tag must be in the
accepted set declared by the field (spec section 9, polymorphic object
references) and the referenced object must be live. -/
def checkOptRef (s : State) (oh : Option Handle) (accepted : List ObjType) :
    Except SaiError Unit :=
  match oh with
  | none => .ok ()
  | some h =>
    if h.tag ∈ accepted then
      if isLive s h then .ok () else .error .InvalidReference
    else .error .InvalidValue

/-- Standard attributes of sai_hostif_trap_group_attr_t
(saihostif.h lines 56-103). -/
inductive sai_hostif_trap_group_attr_t
  | ADMIN_STATE
  | QUEUE
  | POLICER
deriving DecidableEq, Repr

/-- @flags of each trap-group attribute (saihostif.h lines 67, 76, 85). -/
def sai_hostif_trap_group_attr_flags :
    sai_hostif_trap_group_attr_t → List SaiAttrFlag
  | .ADMIN_STATE => [.CREATE_AND_SET]
  | .QUEUE => [.CREATE_AND_SET]
  | .POLICER => [.CREATE_AND_SET]

/-- Standard attributes of sai_hostif_trap_attr_t
(saihostif.h lines 224-270). -/
inductive sai_hostif_trap_attr_t
  | TRAP_TYPE
  | PACKET_ACTION
  | TRAP_PRIORITY
deriving DecidableEq, Repr

/-- @flags of each trap attribute (saihostif.h lines 235, 243, 253). -/
def sai_hostif_trap_attr_flags : sai_hostif_trap_attr_t → List SaiAttrFlag
  | .TRAP_TYPE => [.MANDATORY_ON_CREATE, .CREATE_ONLY, .KEY]
  | .PACKET_ACTION => [.MANDATORY_ON_CREATE, .CREATE_AND_SET]
  | .TRAP_PRIORITY => [.CREATE_AND_SET]

/-- Standard attributes of sai_hostif_attr_t (saihostif.h lines 343-398). -/
inductive sai_hostif_attr_t
  | TYPE
  | OBJ_ID
  | NAME
deriving DecidableEq, Repr

/-- @flags of each host-interface attribute
(saihostif.h lines 354, 367, 382). -/
def sai_hostif_attr_flags : sai_hostif_attr_t → List SaiAttrFlag
  | .TYPE => [.MANDATORY_ON_CREATE, .CREATE_ONLY]
  | .OBJ_ID => [.MANDATORY_ON_CREATE, .CREATE_ONLY]
  | .NAME => [.MANDATORY_ON_CREATE, .CREATE_ONLY]

/-- Standard attributes of sai_hostif_table_entry_attr_t
(saihostif.h lines 502-570). -/
inductive sai_hostif_table_entry_attr_t
  | TYPE
  | OBJ_ID
  | TRAP_ID
  | CHANNEL_TYPE
  | HOST_IF
deriving DecidableEq, Repr

/-- @flags of each table-entry attribute
(saihostif.h lines 513, 525, 535, 545, 553). -/
def sai_hostif_table_entry_attr_flags :
    sai_hostif_table_entry_attr_t → List SaiAttrFlag
  | .TYPE => [.MANDATORY_ON_CREATE, .CREATE_ONLY]
  | .OBJ_ID => [.MANDATORY_ON_CREATE, .CREATE_ONLY]
  | .TRAP_ID => [.MANDATORY_ON_CREATE, .CREATE_ONLY]
  | .CHANNEL_TYPE => [.MANDATORY_ON_CREATE, .CREATE_ONLY]
  | .HOST_IF => [.MANDATORY_ON_CREATE, .CREATE_ONLY]

/-- Standard attributes of sai_router_interface_attr_t
(sairouterinterface.h lines 67-114). -/
inductive sai_router_interface_attr_t
  | VIRTUAL_ROUTER_ID
  | TYPE
  | PORT_ID
deriving DecidableEq, Repr

/-- @flags of each router-interface attribute
(sairouterinterface.h lines 80, 89, 97). -/
def sai_router_interface_attr_flags :
    sai_router_interface_attr_t → List SaiAttrFlag
  | .VIRTUAL_ROUTER_ID => [.MANDATORY_ON_CREATE, .CREATE_ONLY]
  | .TYPE => [.MANDATORY_ON_CREATE, .CREATE_ONLY]
  | .PORT_ID => [.MANDATORY_ON_CREATE, .CREATE_ONLY]

/-- Create-time fields of a TrapGroup; every attribute is optional with a
documented default (saihostif.h lines 68, 77, 88). -/
structure TrapGroupFields where
  admin_state : Option Bool
  queue_index : Option Nat
  policer : Option Handle
deriving DecidableEq, Repr

/-- Modelled from the spec: TrapGroup create (section 4.2) — validates that
policer, if set, references a live Policer; fills the documented defaults
admin_state = true, queue_index = 0, policer = null. -/
def createTrapGroup (s : State) (f : TrapGroupFields) :
    Except SaiError (State × Handle) :=
  match checkOptRef s f.policer [.policer] with
  | .error e => .error e
  | .ok _ =>
    .ok (alloc s (.trapGroup
      ⟨f.admin_state.getD true, f.queue_index.getD 0, f.policer⟩))

/-- Settable trap-group attribute values (all CREATE_AND_SET). -/
inductive TrapGroupSetAttr
  | adminState (v : Bool)
  | queue (v : Nat)
  | policerRef (v : Option Handle)
deriving DecidableEq, Repr

/-- Modelled from the spec: TrapGroup set_attribute (sections 4.1 and 4.2);
every trap-group attribute is CREATE_AND_SET, and a policer update is
validated against a live Policer. -/
def setTrapGroup (s : State) (h : Handle) (a : TrapGroupSetAttr) :
    Except SaiError State :=
  match get s h with
  | .error .StaleHandle => .error .NotFound
  | .error e => .error e
  | .ok (.trapGroup g) =>
    match a with
    | .adminState v =>
      .ok ⟨setObjSlots s.slots h.slot (.trapGroup {g with admin_state := v})⟩
    | .queue v =>
      .ok ⟨setObjSlots s.slots h.slot (.trapGroup {g with queue_index := v})⟩
    | .policerRef v =>
      match checkOptRef s v [.policer] with
      | .error e => .error e
      | .ok _ =>
        .ok ⟨setObjSlots s.slots h.slot (.trapGroup {g with policer := v})⟩
  | .ok _ => .error .NotFound

/-- Create-time fields of a Trap: trap_type and packet_action are
MANDATORY_ON_CREATE, priority is optional with the documented default
(saihostif.h lines 224-270). -/
structure TrapCreateFields where
  trap_type : sai_hostif_trap_type_t
  packet_action : sai_packet_action_t
  priority : Option Nat
deriving DecidableEq, Repr

/-- Is some live Trap already registered for this trap type?  trap_type is
the KEY attribute (saihostif.h line 235). -/
def trapTypeTaken (s : State) (tt : sai_hostif_trap_type_t) : Bool :=
  (livePairs s).any fun p =>
    match p.2 with
    | .trap t => decide (t.trap_type = tt)
    | _ => false

/-- The @validonly condition of SAI_HOSTIF_TRAP_ATTR_TRAP_PRIORITY
(saihostif.h line 255): packet action is TRAP or COPY. -/
def priorityValidOn (pa : sai_packet_action_t) : Bool :=
  decide (pa = .TRAP) || decide (pa = .COPY)

/-- Modelled from the spec: Trap create (section 4.3) — a duplicate
trap_type is DuplicateKey; a priority supplied while packet_action is not
trap/copy is InvalidValue; an omitted priority defaults to the switch-wide
ACL minimum priority. -/
def createTrap (s : State) (f : TrapCreateFields) :
    Except SaiError (State × Handle) :=
  if trapTypeTaken s f.trap_type then .error .DuplicateKey
  else if f.priority.isSome && !priorityValidOn f.packet_action then
    .error .InvalidValue
  else
    .ok (alloc s (.trap ⟨f.trap_type, f.packet_action,
      f.priority.getD SAI_SWITCH_ATTR_ACL_ENTRY_MINIMUM_PRIORITY⟩))

/-- Settable trap attribute values. -/
inductive TrapSetAttr
  | trapType (v : sai_hostif_trap_type_t)
  | packetAction (v : sai_packet_action_t)
  | priorityVal (v : Nat)
deriving DecidableEq, Repr

/-- Modelled from the spec: Trap set_attribute (section 4.3) — trap_type is
create-only (Immutable); priority is accepted only while the current
packet_action is trap or copy (InvalidValue otherwise, per the @validonly
condition, saihostif.h line 255). -/
def setTrap (s : State) (h : Handle) (a : TrapSetAttr) :
    Except SaiError State :=
  match get s h with
  | .error .StaleHandle => .error .NotFound
  | .error e => .error e
  | .ok (.trap t) =>
    match a with
    | .trapType _ => .error .Immutable
    | .packetAction v =>
      .ok ⟨setObjSlots s.slots h.slot (.trap {t with packet_action := v})⟩
    | .priorityVal v =>
      if priorityValidOn t.packet_action then
        .ok ⟨setObjSlots s.slots h.slot (.trap {t with priority := v})⟩
      else .error .InvalidValue
  | .ok _ => .error .NotFound

/-- Create-time fields of a HostInterface (all attributes are create-only,
so the field set equals the stored record). -/
def HostIfFields := HostIf

/-- The object types accepted by SAI_HOSTIF_ATTR_OBJ_ID: PORT, LAG, VLAN
and SYSTEM_PORT (the @objects annotation, saihostif.h line 368). -/
def hostifObjIdAcceptedTypes : List ObjType :=
  [.port, .lag, .vlan, .systemPort]

/-- The per-kind conditional field shape of a HostInterface: bound_object
is required exactly for NETDEV (@condition, saihostif.h line 369); name is
required exactly for NETDEV and GENETLINK (@condition, saihostif.h line
383) and is length-limited to SAI_HOSTIF_NAME_SIZE - 1 characters
(saihostif.h lines 374-377); the FD kind carries neither field. -/
def hostifShapeCheck (f : HostIf) : Except SaiError Unit :=
  match f.kind with
  | .NETDEV =>
    match f.bound_object, f.name with
    | some _, some n =>
      if n.length ≤ SAI_HOSTIF_NAME_SIZE - 1 then .ok ()
      else .error .InvalidValue
    | _, _ => .error .InvalidValue
  | .FD =>
    match f.bound_object, f.name with
    | none, none => .ok ()
    | _, _ => .error .InvalidValue
  | .GENETLINK =>
    match f.bound_object, f.name with
    | none, some n =>
      if n.length ≤ SAI_HOSTIF_NAME_SIZE - 1 then .ok ()
      else .error .InvalidValue
    | _, _ => .error .InvalidValue

/-- Modelled from the spec: the name-uniqueness check among live
netdev-kind interfaces (section 4.4). -/
def hostifDupCheck (s : State) (f : HostIf) : Except SaiError Unit :=
  match f.kind, f.name with
  | .NETDEV, some n =>
    if (livePairs s).any fun p =>
        match p.2 with
        | .hostif hi => decide (hi.kind = .NETDEV) && decide (hi.name = some n)
        | _ => false
    then .error .DuplicateKey else .ok ()
  | _, _ => .ok ()

/-- Modelled from the spec: HostInterface create (section 4.4) — validates
the per-kind shape, the bound-object reference (against the accepted
object types of saihostif.h line 368) and name uniqueness. -/
def createHostif (s : State) (f : HostIf) :
    Except SaiError (State × Handle) :=
  match hostifShapeCheck f with
  | .error e => .error e
  | .ok _ =>
    match checkOptRef s f.bound_object hostifObjIdAcceptedTypes with
    | .error e => .error e
    | .ok _ =>
      match hostifDupCheck s f with
      | .error e => .error e
      | .ok _ => .ok (alloc s (.hostif f))

/-- Modelled from the spec: HostInterface set_attribute — every standard
attribute of sai_hostif_attr_t is CREATE_ONLY (saihostif.h lines 354, 367,
382), so mutation of a live host interface is Immutable (section 4.1). -/
def setHostifAttr (s : State) (h : Handle) (a : sai_hostif_attr_t) :
    Except SaiError State :=
  match get s h with
  | .error .StaleHandle => .error .NotFound
  | .error e => .error e
  | .ok (.hostif _) =>
    if SaiAttrFlag.CREATE_AND_SET ∈ sai_hostif_attr_flags a then .ok s
    else .error .Immutable
  | .ok _ => .error .NotFound

/-- Does this router-interface type require an attachment? (@condition of
SAI_ROUTER_INTERFACE_ATTR_PORT_ID, sairouterinterface.h line 99: type is
PORT or SUB_PORT.) -/
def rifAttachmentRequired (t : sai_router_interface_type_t) : Bool :=
  decide (t = .PORT) || decide (t = .SUB_PORT)

/-- The object types accepted by SAI_ROUTER_INTERFACE_ATTR_PORT_ID: PORT,
LAG and SYSTEM_PORT (the @objects annotation, sairouterinterface.h
line 98). -/
def rifPortIdAcceptedTypes : List ObjType := [.port, .lag, .systemPort]

/-- The type-conditioned attachment requirement/prohibition of a
RouterInterface (the @condition annotation, sairouterinterface.h line 99,
together with the spec section 3 invariant that attachment is absent for
the other types). -/
def rifAttachmentCheck (s : State) (f : RouterIf) : Except SaiError Unit :=
  if rifAttachmentRequired f.rif_type then
    match f.attachment with
    | none => .error .InvalidValue
    | some a => checkOptRef s (some a) rifPortIdAcceptedTypes
  else
    match f.attachment with
    | none => .ok ()
    | some _ => .error .InvalidValue

/-- Modelled from the spec: RouterInterface create (section 4.5) —
validates virtual-router liveness and the type-conditioned attachment
requirement/prohibition. -/
def createRouterIf (s : State) (f : RouterIf) :
    Except SaiError (State × Handle) :=
  match checkOptRef s (some f.virtual_router) [.virtualRouter] with
  | .error e => .error e
  | .ok _ =>
    match rifAttachmentCheck s f with
    | .error e => .error e
    | .ok _ => .ok (alloc s (.routerIf f))

/-- Modelled from the spec: RouterInterface set_attribute — every standard
attribute of sai_router_interface_attr_t is CREATE_ONLY
(sairouterinterface.h lines 80, 89, 97), so mutation of a live router
interface is Immutable. -/
def setRouterIfAttr (s : State) (h : Handle)
    (a : sai_router_interface_attr_t) : Except SaiError State :=
  match get s h with
  | .error .StaleHandle => .error .NotFound
  | .error e => .error e
  | .ok (.routerIf _) =>
    if SaiAttrFlag.CREATE_AND_SET ∈ sai_router_interface_attr_flags a then
      .ok s
    else .error .Immutable
  | .ok _ => .error .NotFound

/-- Is this a port/lag/vlan entry type (the specific match granularity)? -/
def entryTypeSpecific (t : sai_hostif_table_entry_type_t) : Bool :=
  decide (t = .PORT) || decide (t = .LAG) || decide (t = .VLAN)

/-- The entry_type-conditioned shape of a TableEntry (the @condition
annotations of saihostif.h lines 527 and 537): match_object is required
exactly for PORT/LAG/VLAN, match_trap is required exactly for
PORT/LAG/VLAN/TRAP_ID, and WILDCARD carries neither. -/
def entryShapeCheck (f : TableEntry) : Except SaiError Unit :=
  match f.entry_type with
  | .WILDCARD =>
    match f.match_object, f.match_trap with
    | none, none => .ok ()
    | _, _ => .error .InvalidValue
  | .TRAP_ID =>
    match f.match_object, f.match_trap with
    | none, some _ => .ok ()
    | _, _ => .error .InvalidValue
  | _ =>
    match f.match_object, f.match_trap with
    | some _, some _ => .ok ()
    | _, _ => .error .InvalidValue

/-- The object types accepted by SAI_HOSTIF_TABLE_ENTRY_ATTR_OBJ_ID: PORT,
LAG and ROUTER_INTERFACE (the @objects annotation, saihostif.h
line 526). -/
def entryObjIdAcceptedTypes : List ObjType := [.port, .lag, .routerIf]

/-- Does this channel type require a target host interface? (@condition of
SAI_HOSTIF_TABLE_ENTRY_ATTR_HOST_IF, saihostif.h line 555: channel is FD
or GENETLINK.) -/
def channelNeedsHostif (c : sai_hostif_table_entry_channel_type_t) : Bool :=
  decide (c = .FD) || decide (c = .GENETLINK)

/-- Reference checks of a TableEntry: match_object against the accepted
object types of saihostif.h line 526, match_trap against live traps
(the @objects annotation of saihostif.h line 536; the user-defined-trap
object type is not declared in src and is not modelled). -/
def entryRefCheck (s : State) (f : TableEntry) : Except SaiError Unit :=
  match checkOptRef s f.match_object entryObjIdAcceptedTypes with
  | .error e => .error e
  | .ok _ => checkOptRef s f.match_trap [.trap]

/-- The channel-conditioned target requirement: target_host_interface is
required exactly when channel is FD or GENETLINK (saihostif.h line 555),
and must reference a live host interface. -/
def entryChanCheck (s : State) (f : TableEntry) : Except SaiError Unit :=
  if channelNeedsHostif f.channel then
    match f.target_host_interface with
    | none => .error .InvalidValue
    | some hh =>
      if hh.tag = ObjType.hostif then
        if isLive s hh then .ok () else .error .InvalidReference
      else .error .InvalidValue
  else
    match f.target_host_interface with
    | none => .ok ()
    | some _ => .error .InvalidValue

/-- Modelled from the spec: address-point uniqueness (section 4.6) — the
(entry_type, match_object, match_trap) tuple of every live entry is
unique; in particular at most one WILDCARD entry exists at a time. -/
def entryDupCheck (s : State) (f : TableEntry) : Except SaiError Unit :=
  if (liveEntries s).any fun p =>
      decide (p.2.entry_type = f.entry_type) &&
      decide (p.2.match_object = f.match_object) &&
      decide (p.2.match_trap = f.match_trap)
  then .error .DuplicateKey else .ok ()

/-- Modelled from the spec: TableEntry create (section 4.6) — validates
the entry_type-conditioned shape, the referenced handles, the
channel-conditioned target requirement and address-point uniqueness, in
that order. -/
def createTableEntry (s : State) (f : TableEntry) :
    Except SaiError (State × Handle) :=
  match entryShapeCheck f with
  | .error e => .error e
  | .ok _ =>
    match entryRefCheck s f with
    | .error e => .error e
    | .ok _ =>
      match entryChanCheck s f with
      | .error e => .error e
      | .ok _ =>
        match entryDupCheck s f with
        | .error e => .error e
        | .ok _ => .ok (alloc s (.tableEntry f))

/-- Modelled from the spec: TableEntry set_attribute — every standard
attribute of sai_hostif_table_entry_attr_t is CREATE_ONLY (saihostif.h
lines 513, 525, 535, 545, 553), so mutation of a live table entry is
Immutable. -/
def setTableEntryAttr (s : State) (h : Handle)
    (a : sai_hostif_table_entry_attr_t) : Except SaiError State :=
  match get s h with
  | .error .StaleHandle => .error .NotFound
  | .error e => .error e
  | .ok (.tableEntry _) =>
    if SaiAttrFlag.CREATE_AND_SET ∈ sai_hostif_table_entry_attr_flags a then
      .ok s
    else .error .Immutable
  | .ok _ => .error .NotFound

/-- Does this table entry match (attachment_point, trap) at the specific
port/lag/vlan granularity? -/
def specificMatchB (te : TableEntry) (ap tr : Handle) : Bool :=
  entryTypeSpecific te.entry_type &&
  decide (te.match_object = some ap) && decide (te.match_trap = some tr)

/-- Does this table entry match the trap at the TRAP_ID granularity
(any attachment point)? -/
def trapIdMatchB (te : TableEntry) (tr : Handle) : Bool :=
  decide (te.entry_type = .TRAP_ID) && decide (te.match_trap = some tr)

/-- Modelled from the spec: Resolve (section 4.6) — most specific first,
first match wins: a port/lag/vlan entry matching both keys exactly, then a
trap_id entry matching the trap, then the wildcard entry; none is
NoMatch. -/
def resolve (s : State) (ap tr : Handle) : Option Handle :=
  match (liveEntries s).find? (fun p => specificMatchB p.2 ap tr) with
  | some p => some p.1
  | none =>
    match (liveEntries s).find? (fun p => trapIdMatchB p.2 tr) with
    | some p => some p.1
    | none =>
      match (liveEntries s).find?
          (fun p => decide (p.2.entry_type = .WILDCARD)) with
      | some p => some p.1
      | none => none

/-- The spec section 3 shape invariant of a TableEntry: the presence of
match_object and match_trap is dictated by entry_type (exactly one of the
three shapes holds), and target_host_interface is present exactly when the
channel is FD or GENETLINK. -/
def entryShapeOKb (te : TableEntry) : Bool :=
  (match te.entry_type with
   | .WILDCARD => te.match_object.isNone && te.match_trap.isNone
   | .TRAP_ID => te.match_object.isNone && te.match_trap.isSome
   | _ => te.match_object.isSome && te.match_trap.isSome) &&
  (te.target_host_interface.isSome == channelNeedsHostif te.channel)

/-- Every live table entry satisfies the shape invariant. -/
def stateInv (s : State) : Prop :=
  ∀ p ∈ liveEntries s, entryShapeOKb p.2 = true

/-- The generation currently stored at slot i (zero for a slot that does
not exist yet). -/
def genAt (s : State) (i : Nat) : Nat :=
  match s.slots.get? i with
  | some sl => sl.generation
  | none => 0

def slotCount (s : State) : Nat := s.slots.length

/-- One successful mutating operation of the engine API (system step). -/
inductive Step : State → State → Prop
  | addExternal (s : State) (k : ExtKind) : Step s (addExternal s k).1
  | createTrapGroup (s : State) (f : TrapGroupFields) (r : State × Handle) :
      createTrapGroup s f = .ok r → Step s r.1
  | createTrap (s : State) (f : TrapCreateFields) (r : State × Handle) :
      createTrap s f = .ok r → Step s r.1
  | createHostif (s : State) (f : HostIf) (r : State × Handle) :
      createHostif s f = .ok r → Step s r.1
  | createRouterIf (s : State) (f : RouterIf) (r : State × Handle) :
      createRouterIf s f = .ok r → Step s r.1
  | createTableEntry (s : State) (f : TableEntry) (r : State × Handle) :
      createTableEntry s f = .ok r → Step s r.1
  | destroy (s : State) (h : Handle) (s' : State) :
      destroy s h = .ok s' → Step s s'
  | setTrapGroup (s : State) (h : Handle) (a : TrapGroupSetAttr)
      (s' : State) : setTrapGroup s h a = .ok s' → Step s s'
  | setTrap (s : State) (h : Handle) (a : TrapSetAttr) (s' : State) :
      setTrap s h a = .ok s' → Step s s'
  | setHostifAttr (s : State) (h : Handle) (a : sai_hostif_attr_t)
      (s' : State) : setHostifAttr s h a = .ok s' → Step s s'
  | setTableEntryAttr (s : State) (h : Handle)
      (a : sai_hostif_table_entry_attr_t) (s' : State) :
      setTableEntryAttr s h a = .ok s' → Step s s'
  | setRouterIfAttr (s : State) (h : Handle) (a : sai_router_interface_attr_t)
      (s' : State) : setRouterIfAttr s h a = .ok s' → Step s s'

/-- Any number of successful engine operations. -/
def Reach : State → State → Prop := Relation.ReflTransGen Step

/-- A concrete configuration used to instantiate the general theorems:
two ports, four traps, five table entries, a host interface, a trap group
and a router interface. -/
def demoPortA : Handle := ⟨0, 0, .port⟩

def demoPortB : Handle := ⟨1, 0, .port⟩

def demoTrapX : Handle := ⟨2, 0, .trap⟩

def demoTrapY : Handle := ⟨3, 0, .trap⟩

def demoE1 : Handle := ⟨4, 0, .tableEntry⟩

def demoE2 : Handle := ⟨5, 0, .tableEntry⟩

def demoE3 : Handle := ⟨6, 0, .tableEntry⟩

def demoTrapF : Handle := ⟨7, 0, .trap⟩

def demoHostif : Handle := ⟨8, 0, .hostif⟩

def demoGroup : Handle := ⟨9, 0, .trapGroup⟩

def demoVr : Handle := ⟨10, 0, .virtualRouter⟩

def demoRif : Handle := ⟨11, 0, .routerIf⟩

def demoTrapZ : Handle := ⟨12, 0, .trap⟩

def demoEZ : Handle := ⟨13, 0, .tableEntry⟩

def demoState : State := ⟨[
  ⟨0, some (.external .port)⟩,
  ⟨0, some (.external .port)⟩,
  ⟨0, some (.trap ⟨.LLDP, .TRAP, 0⟩)⟩,
  ⟨0, some (.trap ⟨.BGP, .TRAP, 5⟩)⟩,
  ⟨0, some (.tableEntry ⟨.PORT, some demoPortA, some demoTrapX, .CB, none⟩)⟩,
  ⟨0, some (.tableEntry ⟨.TRAP_ID, none, some demoTrapX, .CB, none⟩)⟩,
  ⟨0, some (.tableEntry ⟨.WILDCARD, none, none, .CB, none⟩)⟩,
  ⟨0, some (.trap ⟨.ARP_REQUEST, .FORWARD, 0⟩)⟩,
  ⟨0, some (.hostif ⟨.FD, none, none⟩)⟩,
  ⟨0, some (.trapGroup ⟨true, 0, none⟩)⟩,
  ⟨0, some (.external .virtualRouter)⟩,
  ⟨0, some (.routerIf ⟨demoVr, .LOOPBACK, none⟩)⟩,
  ⟨0, some (.trap ⟨.IP2ME, .TRAP, 0⟩)⟩,
  ⟨0, some (.tableEntry ⟨.TRAP_ID, none, some demoTrapZ, .CB, none⟩)⟩]⟩

theorem allocSlots_get_self (l : List Slot) (o : Obj) :
    (allocSlots l o).1.get? (allocSlots l o).2.1 =
      some ⟨(allocSlots l o).2.2, some o⟩ := by
  induction l with
  | nil => rfl
  | cons sl rest ih =>
    cases hobj : sl.obj with
    | none => simp [allocSlots, hobj]
    | some o' => simpa [allocSlots, hobj] using ih

theorem allocSlots_get_ne (l : List Slot) (o : Obj) (j : Nat)
    (hj : j ≠ (allocSlots l o).2.1) :
    (allocSlots l o).1.get? j = l.get? j := by
  induction l generalizing j with
  | nil =>
    cases j with
    | zero => exact absurd rfl hj
    | succ k => rfl
  | cons sl rest ih =>
    cases hobj : sl.obj with
    | none =>
      cases j with
      | zero =>
        exfalso
        exact hj (by simp [allocSlots, hobj])
      | succ k => simp [allocSlots, hobj]
    | some o' =>
      cases j with
      | zero => simp [allocSlots, hobj]
      | succ k =>
        have hk : k ≠ (allocSlots rest o).2.1 := by
          intro he
          exact hj (by simp [allocSlots, hobj, he])
        simpa [allocSlots, hobj] using ih k hk

theorem allocSlots_old_self (l : List Slot) (o : Obj) :
    l.get? (allocSlots l o).2.1 = some ⟨(allocSlots l o).2.2, none⟩ ∨
      ((allocSlots l o).2.1 = l.length ∧ (allocSlots l o).2.2 = 0) := by
  induction l with
  | nil => exact Or.inr ⟨rfl, rfl⟩
  | cons sl rest ih =>
    cases hobj : sl.obj with
    | none =>
      left
      cases sl
      simp at hobj
      simp [allocSlots, hobj]
    | some o' =>
      rcases ih with h | ⟨h1, h2⟩
      · left
        simpa [allocSlots, hobj] using h
      · right
        constructor
        · simp [allocSlots, hobj, h1]
        · simpa [allocSlots, hobj] using h2

theorem allocSlots_length (l : List Slot) (o : Obj) :
    l.length ≤ (allocSlots l o).1.length := by
  induction l with
  | nil => simp [allocSlots]
  | cons sl rest ih =>
    cases hobj : sl.obj with
    | none => simp [allocSlots, hobj]
    | some o' => simpa [allocSlots, hobj] using ih

theorem destroySlots_get_ne (l : List Slot) (i j : Nat) (hj : j ≠ i) :
    (destroySlots l i).get? j = l.get? j := by
  induction l generalizing i j with
  | nil => rfl
  | cons sl rest ih =>
    cases i with
    | zero =>
      cases j with
      | zero => exact absurd rfl hj
      | succ k => simp [destroySlots]
    | succ n =>
      cases j with
      | zero => simp [destroySlots]
      | succ k =>
        have hk : k ≠ n := fun he => hj (by simp [he])
        simpa [destroySlots] using ih n k hk

theorem destroySlots_get_self (l : List Slot) (i : Nat) :
    (destroySlots l i).get? i =
      (l.get? i).map (fun sl => ⟨sl.generation + 1, none⟩) := by
  induction l generalizing i with
  | nil => rfl
  | cons sl rest ih =>
    cases i with
    | zero => simp [destroySlots]
    | succ n => simpa [destroySlots] using ih n

theorem destroySlots_length (l : List Slot) (i : Nat) :
    (destroySlots l i).length = l.length := by
  induction l generalizing i with
  | nil => rfl
  | cons sl rest ih =>
    cases i with
    | zero => simp [destroySlots]
    | succ n => simpa [destroySlots] using ih n

theorem setObjSlots_get_ne (l : List Slot) (i j : Nat) (o : Obj)
    (hj : j ≠ i) : (setObjSlots l i o).get? j = l.get? j := by
  induction l generalizing i j with
  | nil => rfl
  | cons sl rest ih =>
    cases i with
    | zero =>
      cases j with
      | zero => exact absurd rfl hj
      | succ k => simp [setObjSlots]
    | succ n =>
      cases j with
      | zero => simp [setObjSlots]
      | succ k =>
        have hk : k ≠ n := fun he => hj (by simp [he])
        simpa [setObjSlots] using ih n k hk

theorem setObjSlots_get_self (l : List Slot) (i : Nat) (o : Obj) :
    (setObjSlots l i o).get? i =
      (l.get? i).map (fun sl => ⟨sl.generation, some o⟩) := by
  induction l generalizing i with
  | nil => rfl
  | cons sl rest ih =>
    cases i with
    | zero => simp [setObjSlots]
    | succ n => simpa [setObjSlots] using ih n

theorem setObjSlots_length (l : List Slot) (i : Nat) (o : Obj) :
    (setObjSlots l i o).length = l.length := by
  induction l generalizing i with
  | nil => rfl
  | cons sl rest ih =>
    cases i with
    | zero => simp [setObjSlots]
    | succ n => simpa [setObjSlots] using ih n

theorem mem_livePairsAux (l : List Slot) (n : Nat) (h : Handle) (ob : Obj) :
    (h, ob) ∈ livePairsAux l n ↔
      ∃ j sl, l.get? j = some sl ∧ sl.obj = some ob ∧
        h = ⟨n + j, sl.generation, ob.tag⟩ := by
  induction l generalizing n with
  | nil => simp [livePairsAux]
  | cons sl rest ih =>
    have hexp : livePairsAux (sl :: rest) n =
        (match sl.obj with
         | some o => [(⟨n, sl.generation, o.tag⟩, o)]
         | none => []) ++ livePairsAux rest (n + 1) := rfl
    cases hobj : sl.obj with
    | none =>
      rw [hexp, hobj]
      simp only [List.nil_append]
      rw [ih]
      constructor
      · rintro ⟨j, sl', h1, h2, h3⟩
        refine ⟨j + 1, sl', by simpa using h1, h2, ?_⟩
        rw [h3]
        have : n + 1 + j = n + (j + 1) := by omega
        rw [this]
      · rintro ⟨j, sl', h1, h2, h3⟩
        cases j with
        | zero =>
          exfalso
          simp at h1
          rw [h1] at hobj
          rw [hobj] at h2
          exact Option.noConfusion h2
        | succ k =>
          refine ⟨k, sl', by simpa using h1, h2, ?_⟩
          rw [h3]
          have : n + (k + 1) = n + 1 + k := by omega
          rw [this]
    | some o =>
      rw [hexp, hobj]
      simp only [List.singleton_append, List.mem_cons]
      rw [ih]
      constructor
      · rintro (hmem | ⟨j, sl', h1, h2, h3⟩)
        · have hh1 : h = ⟨n, sl.generation, o.tag⟩ := congrArg Prod.fst hmem
          have hh2 : ob = o := congrArg Prod.snd hmem
          refine ⟨0, sl, by simp, by rw [hobj, hh2], ?_⟩
          rw [hh1, hh2]
          simp
        · refine ⟨j + 1, sl', by simpa using h1, h2, ?_⟩
          rw [h3]
          have harith : n + 1 + j = n + (j + 1) := by omega
          rw [harith]
      · rintro ⟨j, sl', h1, h2, h3⟩
        cases j with
        | zero =>
          left
          simp at h1
          rw [h1] at hobj
          rw [hobj] at h2
          have hob : ob = o := (Option.some.inj h2).symm
          rw [h3, hob]
          rw [h1]
          simp
        | succ k =>
          right
          refine ⟨k, sl', by simpa using h1, h2, ?_⟩
          rw [h3]
          have harith : n + (k + 1) = n + 1 + k := by omega
          rw [harith]

theorem mem_livePairs (s : State) (h : Handle) (ob : Obj) :
    (h, ob) ∈ livePairs s ↔
      ∃ sl, s.slots.get? h.slot = some sl ∧ sl.obj = some ob ∧
        sl.generation = h.generation ∧ h.tag = ob.tag := by
  rw [livePairs, mem_livePairsAux]
  constructor
  · rintro ⟨j, sl, h1, h2, h3⟩
    rw [h3]
    refine ⟨sl, ?_, h2, rfl, rfl⟩
    simpa using h1
  · rintro ⟨sl, h1, h2, h3, h4⟩
    refine ⟨h.slot, sl, h1, h2, ?_⟩
    rw [Nat.zero_add, h3, ← h4]

theorem get_ok_iff (s : State) (h : Handle) (ob : Obj) :
    get s h = .ok ob ↔
      ∃ sl, s.slots.get? h.slot = some sl ∧ sl.obj = some ob ∧
        sl.generation = h.generation ∧ h.tag = ob.tag := by
  unfold get
  cases hg : s.slots.get? h.slot with
  | none => simp
  | some sl =>
    by_cases hgen : sl.generation = h.generation
    · cases hobj : sl.obj with
      | none =>
        simp only [hgen, if_true, hobj]
        constructor
        · intro hok
          exact Except.noConfusion hok
        · rintro ⟨sl', h1, h2, h3, h4⟩
          have hsl : sl = sl' := Option.some.inj h1
          rw [← hsl, hobj] at h2
          exact Option.noConfusion h2
      | some o =>
        by_cases htag : o.tag = h.tag
        · simp only [hgen, if_true, hobj, htag, if_pos]
          constructor
          · intro hok
            have hoe : o = ob := by
              cases hok
              rfl
            exact ⟨sl, rfl, by rw [hobj, hoe], hgen, by rw [← htag, hoe]⟩
          · rintro ⟨sl', h1, h2, h3, h4⟩
            have hsl : sl = sl' := Option.some.inj h1
            rw [← hsl, hobj] at h2
            have hoe := Option.some.inj h2
            rw [hoe]
        · simp only [hgen, if_true, hobj, htag, if_neg, not_false_iff]
          constructor
          · intro hok
            exact Except.noConfusion hok
          · rintro ⟨sl', h1, h2, h3, h4⟩
            have hsl : sl = sl' := Option.some.inj h1
            rw [← hsl, hobj] at h2
            have hoe := Option.some.inj h2
            exact absurd (by rw [hoe, ← h4]) htag
    · simp only [hgen, if_false]
      constructor
      · intro hok
        exact Except.noConfusion hok
      · rintro ⟨sl', h1, h2, h3, h4⟩
        have hsl : sl = sl' := Option.some.inj h1
        rw [hsl] at hgen
        exact absurd h3 hgen

theorem get_ok_iff_mem (s : State) (h : Handle) (ob : Obj) :
    get s h = .ok ob ↔ (h, ob) ∈ livePairs s := by
  rw [get_ok_iff, mem_livePairs]

theorem mem_liveEntries (s : State) (h : Handle) (te : TableEntry) :
    (h, te) ∈ liveEntries s ↔ (h, Obj.tableEntry te) ∈ livePairs s := by
  rw [liveEntries, List.mem_filterMap]
  constructor
  · rintro ⟨⟨h', ob⟩, hmem, hf⟩
    cases ob with
    | tableEntry te' =>
      simp at hf
      rw [← hf.1, ← hf.2]
      exact hmem
    | trapGroup g => simp at hf
    | trap t => simp at hf
    | hostif hi => simp at hf
    | routerIf r => simp at hf
    | external k => simp at hf
  · intro hmem
    exact ⟨(h, .tableEntry te), hmem, rfl⟩

theorem get_alloc_self (s : State) (o : Obj) :
    get (alloc s o).1 (alloc s o).2 = .ok o := by
  rw [get_ok_iff]
  exact ⟨⟨(allocSlots s.slots o).2.2, some o⟩, allocSlots_get_self s.slots o,
    rfl, rfl, rfl⟩

theorem get_destroy_stale (s : State) (h : Handle) (ob : Obj)
    (hok : get s h = .ok ob) :
    get ⟨destroySlots s.slots h.slot⟩ h = .error .StaleHandle := by
  rw [get_ok_iff] at hok
  obtain ⟨sl, h1, h2, h3, h4⟩ := hok
  unfold get
  have hging : (destroySlots s.slots h.slot).get? h.slot =
      some ⟨sl.generation + 1, none⟩ := by
    rw [destroySlots_get_self, h1]
    rfl
  simp only [hging]
  have : ¬ (sl.generation + 1 = h.generation) := by omega
  simp [this]

theorem get_destroy_ne (s : State) (i : Nat) (h : Handle)
    (hne : h.slot ≠ i) : get ⟨destroySlots s.slots i⟩ h = get s h := by
  unfold get
  rw [show (State.mk (destroySlots s.slots i)).slots = destroySlots s.slots i
    from rfl]
  rw [destroySlots_get_ne s.slots i h.slot hne]

theorem get_setObj_self (s : State) (h : Handle) (o ob : Obj)
    (hok : get s h = .ok ob) (htag : o.tag = h.tag) :
    get ⟨setObjSlots s.slots h.slot o⟩ h = .ok o := by
  rw [get_ok_iff] at hok
  obtain ⟨sl, h1, h2, h3, h4⟩ := hok
  rw [get_ok_iff]
  refine ⟨⟨sl.generation, some o⟩, ?_, rfl, h3, htag.symm⟩
  rw [show (State.mk (setObjSlots s.slots h.slot o)).slots =
    setObjSlots s.slots h.slot o from rfl]
  rw [setObjSlots_get_self, h1]
  rfl

theorem get_setObj_ne (s : State) (i : Nat) (o : Obj) (h : Handle)
    (hne : h.slot ≠ i) : get ⟨setObjSlots s.slots i o⟩ h = get s h := by
  unfold get
  rw [show (State.mk (setObjSlots s.slots i o)).slots =
    setObjSlots s.slots i o from rfl]
  rw [setObjSlots_get_ne s.slots i h.slot o hne]

theorem genAt_alloc (s : State) (o : Obj) (i : Nat) :
    genAt (alloc s o).1 i = genAt s i := by
  unfold genAt
  by_cases hi : i = (allocSlots s.slots o).2.1
  · rw [hi]
    rw [show (alloc s o).1.slots = (allocSlots s.slots o).1 from rfl]
    rw [allocSlots_get_self]
    rcases allocSlots_old_self s.slots o with hold | ⟨hlen, hzero⟩
    · rw [hold]
    · have : s.slots.get? (allocSlots s.slots o).2.1 = none := by
        rw [hlen]
        exact List.get?_eq_none.mpr (Nat.le_refl _)
      rw [this, hzero]
  · rw [show (alloc s o).1.slots = (allocSlots s.slots o).1 from rfl]
    rw [allocSlots_get_ne s.slots o i hi]

theorem genAt_destroy_ge (s : State) (i j : Nat) :
    genAt s j ≤ genAt ⟨destroySlots s.slots i⟩ j := by
  unfold genAt
  rw [show (State.mk (destroySlots s.slots i)).slots = destroySlots s.slots i
    from rfl]
  by_cases hj : j = i
  · rw [hj, destroySlots_get_self]
    cases hg : s.slots.get? i with
    | none => simp
    | some sl => simp
  · rw [destroySlots_get_ne s.slots i j hj]

theorem genAt_setObj (s : State) (i : Nat) (o : Obj) (j : Nat) :
    genAt ⟨setObjSlots s.slots i o⟩ j = genAt s j := by
  unfold genAt
  rw [show (State.mk (setObjSlots s.slots i o)).slots =
    setObjSlots s.slots i o from rfl]
  by_cases hj : j = i
  · rw [hj, setObjSlots_get_self]
    cases hg : s.slots.get? i with
    | none => simp
    | some sl => simp
  · rw [setObjSlots_get_ne s.slots i j o hj]

theorem slotCount_alloc (s : State) (o : Obj) :
    slotCount s ≤ slotCount (alloc s o).1 :=
  allocSlots_length s.slots o

theorem slotCount_destroy (s : State) (i : Nat) :
    slotCount ⟨destroySlots s.slots i⟩ = slotCount s :=
  destroySlots_length s.slots i

theorem slotCount_setObj (s : State) (i : Nat) (o : Obj) :
    slotCount ⟨setObjSlots s.slots i o⟩ = slotCount s :=
  setObjSlots_length s.slots i o

theorem livePairs_alloc_cases (s : State) (o : Obj) (h : Handle) (ob : Obj)
    (hm : (h, ob) ∈ livePairs (alloc s o).1) :
    (h, ob) ∈ livePairs s ∨ ob = o := by
  rw [mem_livePairs] at hm
  obtain ⟨sl, h1, h2, h3, h4⟩ := hm
  rw [show (alloc s o).1.slots = (allocSlots s.slots o).1 from rfl] at h1
  by_cases hi : h.slot = (allocSlots s.slots o).2.1
  · right
    rw [hi, allocSlots_get_self] at h1
    have hsl : sl = ⟨(allocSlots s.slots o).2.2, some o⟩ :=
      (Option.some.inj h1).symm
    rw [hsl] at h2
    exact (Option.some.inj h2).symm
  · left
    rw [allocSlots_get_ne s.slots o h.slot hi] at h1
    rw [mem_livePairs]
    exact ⟨sl, h1, h2, h3, h4⟩

theorem livePairs_destroy_cases (s : State) (i : Nat) (h : Handle) (ob : Obj)
    (hm : (h, ob) ∈ livePairs ⟨destroySlots s.slots i⟩) :
    (h, ob) ∈ livePairs s ∧ h.slot ≠ i := by
  rw [mem_livePairs] at hm
  obtain ⟨sl, h1, h2, h3, h4⟩ := hm
  rw [show (State.mk (destroySlots s.slots i)).slots = destroySlots s.slots i
    from rfl] at h1
  by_cases hi : h.slot = i
  · exfalso
    rw [hi, destroySlots_get_self] at h1
    cases hg : s.slots.get? i with
    | none =>
      rw [hg] at h1
      exact Option.noConfusion h1
    | some sl0 =>
      rw [hg] at h1
      have hsl : sl = ⟨sl0.generation + 1, none⟩ := (Option.some.inj h1).symm
      rw [hsl] at h2
      exact Option.noConfusion h2
  · refine ⟨?_, hi⟩
    rw [destroySlots_get_ne s.slots i h.slot hi] at h1
    rw [mem_livePairs]
    exact ⟨sl, h1, h2, h3, h4⟩

theorem livePairs_setObj_cases (s : State) (i : Nat) (o : Obj) (h : Handle)
    (ob : Obj) (hm : (h, ob) ∈ livePairs ⟨setObjSlots s.slots i o⟩) :
    (h, ob) ∈ livePairs s ∨ ob = o := by
  rw [mem_livePairs] at hm
  obtain ⟨sl, h1, h2, h3, h4⟩ := hm
  rw [show (State.mk (setObjSlots s.slots i o)).slots =
    setObjSlots s.slots i o from rfl] at h1
  by_cases hi : h.slot = i
  · right
    rw [hi, setObjSlots_get_self] at h1
    cases hg : s.slots.get? i with
    | none =>
      rw [hg] at h1
      exact Option.noConfusion h1
    | some sl0 =>
      rw [hg] at h1
      have hsl : sl = ⟨sl0.generation, some o⟩ := (Option.some.inj h1).symm
      rw [hsl] at h2
      exact (Option.some.inj h2).symm
  · left
    rw [setObjSlots_get_ne s.slots i h.slot o hi] at h1
    rw [mem_livePairs]
    exact ⟨sl, h1, h2, h3, h4⟩

theorem createTrapGroup_ok_inv (s : State) (f : TrapGroupFields)
    (r : State × Handle) (hc : createTrapGroup s f = .ok r) :
    r = alloc s (.trapGroup
      ⟨f.admin_state.getD true, f.queue_index.getD 0, f.policer⟩) := by
  unfold createTrapGroup at hc
  cases hk : checkOptRef s f.policer [.policer] with
  | error e =>
    rw [hk] at hc
    exact Except.noConfusion hc
  | ok u =>
    rw [hk] at hc
    exact (Except.ok.inj hc).symm

theorem createTrap_ok_inv (s : State) (f : TrapCreateFields)
    (r : State × Handle) (hc : createTrap s f = .ok r) :
    r = alloc s (.trap ⟨f.trap_type, f.packet_action,
      f.priority.getD SAI_SWITCH_ATTR_ACL_ENTRY_MINIMUM_PRIORITY⟩) := by
  unfold createTrap at hc
  split at hc
  · exact Except.noConfusion hc
  · split at hc
    · exact Except.noConfusion hc
    · exact (Except.ok.inj hc).symm

theorem createHostif_ok_inv (s : State) (f : HostIf) (r : State × Handle)
    (hc : createHostif s f = .ok r) : r = alloc s (.hostif f) := by
  unfold createHostif at hc
  cases h1 : hostifShapeCheck f with
  | error e =>
    rw [h1] at hc
    exact Except.noConfusion hc
  | ok u =>
    rw [h1] at hc
    cases h2 : checkOptRef s f.bound_object hostifObjIdAcceptedTypes with
    | error e =>
      rw [h2] at hc
      exact Except.noConfusion hc
    | ok u2 =>
      rw [h2] at hc
      cases h3 : hostifDupCheck s f with
      | error e =>
        rw [h3] at hc
        exact Except.noConfusion hc
      | ok u3 =>
        rw [h3] at hc
        exact (Except.ok.inj hc).symm

theorem createRouterIf_ok_inv (s : State) (f : RouterIf)
    (r : State × Handle) (hc : createRouterIf s f = .ok r) :
    r = alloc s (.routerIf f) := by
  unfold createRouterIf at hc
  cases h1 : checkOptRef s (some f.virtual_router) [.virtualRouter] with
  | error e =>
    rw [h1] at hc
    exact Except.noConfusion hc
  | ok u =>
    rw [h1] at hc
    cases h2 : rifAttachmentCheck s f with
    | error e =>
      rw [h2] at hc
      exact Except.noConfusion hc
    | ok u2 =>
      rw [h2] at hc
      exact (Except.ok.inj hc).symm

theorem createTableEntry_ok_inv (s : State) (f : TableEntry)
    (r : State × Handle) (hc : createTableEntry s f = .ok r) :
    r = alloc s (.tableEntry f) ∧ entryShapeCheck f = .ok () ∧
      entryChanCheck s f = .ok () := by
  unfold createTableEntry at hc
  cases h1 : entryShapeCheck f with
  | error e =>
    rw [h1] at hc
    exact Except.noConfusion hc
  | ok u =>
    rw [h1] at hc
    cases h2 : entryRefCheck s f with
    | error e =>
      rw [h2] at hc
      exact Except.noConfusion hc
    | ok u2 =>
      rw [h2] at hc
      cases h3 : entryChanCheck s f with
      | error e =>
        rw [h3] at hc
        exact Except.noConfusion hc
      | ok u3 =>
        rw [h3] at hc
        cases h4 : entryDupCheck s f with
        | error e =>
          rw [h4] at hc
          exact Except.noConfusion hc
        | ok u4 =>
          rw [h4] at hc
          cases u
          cases u3
          exact ⟨(Except.ok.inj hc).symm, rfl, rfl⟩

theorem destroy_ok_inv (s : State) (h : Handle) (s' : State)
    (hd : destroy s h = .ok s') :
    s' = ⟨destroySlots s.slots h.slot⟩ ∧ (∃ ob, get s h = .ok ob) ∧
      ∀ p ∈ livePairs s, h ∉ refsOf p.2 := by
  unfold destroy at hd
  cases hg : get s h with
  | error e =>
    rw [hg] at hd
    cases e <;> exact Except.noConfusion hd
  | ok ob =>
    rw [hg] at hd
    cases hf : (livePairs s).find? (fun p => decide (h ∈ refsOf p.2)) with
    | some p =>
      rw [hf] at hd
      exact Except.noConfusion hd
    | none =>
      rw [hf] at hd
      refine ⟨(Except.ok.inj hd).symm, ⟨ob, rfl⟩, ?_⟩
      intro p hp
      have := List.find?_eq_none.mp hf p hp
      simpa using this

theorem setTrapGroup_ok_inv (s : State) (h : Handle) (a : TrapGroupSetAttr)
    (s' : State) (hc : setTrapGroup s h a = .ok s') :
    ∃ g, s' = ⟨setObjSlots s.slots h.slot (.trapGroup g)⟩ := by
  unfold setTrapGroup at hc
  cases hg : get s h with
  | error e =>
    rw [hg] at hc
    cases e <;> exact Except.noConfusion hc
  | ok ob =>
    cases ob with
    | trapGroup g =>
      cases a with
      | adminState v =>
        simp only [hg] at hc
        exact ⟨_, (Except.ok.inj hc).symm⟩
      | queue v =>
        simp only [hg] at hc
        exact ⟨_, (Except.ok.inj hc).symm⟩
      | policerRef v =>
        simp only [hg] at hc
        cases hk : checkOptRef s v [.policer] with
        | error e =>
          rw [hk] at hc
          exact Except.noConfusion hc
        | ok u =>
          rw [hk] at hc
          exact ⟨_, (Except.ok.inj hc).symm⟩
    | trap t =>
      simp only [hg] at hc
      exact Except.noConfusion hc
    | hostif hi =>
      simp only [hg] at hc
      exact Except.noConfusion hc
    | tableEntry te =>
      simp only [hg] at hc
      exact Except.noConfusion hc
    | routerIf rr =>
      simp only [hg] at hc
      exact Except.noConfusion hc
    | external k =>
      simp only [hg] at hc
      exact Except.noConfusion hc

theorem setTrap_ok_inv (s : State) (h : Handle) (a : TrapSetAttr)
    (s' : State) (hc : setTrap s h a = .ok s') :
    ∃ t, s' = ⟨setObjSlots s.slots h.slot (.trap t)⟩ := by
  unfold setTrap at hc
  cases hg : get s h with
  | error e =>
    rw [hg] at hc
    cases e <;> exact Except.noConfusion hc
  | ok ob =>
    cases ob with
    | trap t =>
      cases a with
      | trapType v =>
        simp only [hg] at hc
        exact Except.noConfusion hc
      | packetAction v =>
        simp only [hg] at hc
        exact ⟨_, (Except.ok.inj hc).symm⟩
      | priorityVal v =>
        simp only [hg] at hc
        split at hc
        · exact ⟨_, (Except.ok.inj hc).symm⟩
        · exact Except.noConfusion hc
    | trapGroup g =>
      simp only [hg] at hc
      exact Except.noConfusion hc
    | hostif hi =>
      simp only [hg] at hc
      exact Except.noConfusion hc
    | tableEntry te =>
      simp only [hg] at hc
      exact Except.noConfusion hc
    | routerIf rr =>
      simp only [hg] at hc
      exact Except.noConfusion hc
    | external k =>
      simp only [hg] at hc
      exact Except.noConfusion hc

theorem setHostifAttr_ok_inv (s : State) (h : Handle)
    (a : sai_hostif_attr_t) (s' : State)
    (hc : setHostifAttr s h a = .ok s') : s' = s := by
  unfold setHostifAttr at hc
  cases hg : get s h with
  | error e =>
    rw [hg] at hc
    cases e <;> exact Except.noConfusion hc
  | ok ob =>
    cases ob with
    | hostif hi =>
      simp only [hg] at hc
      split at hc
      · exact (Except.ok.inj hc).symm
      · exact Except.noConfusion hc
    | trapGroup g =>
      simp only [hg] at hc
      exact Except.noConfusion hc
    | trap t =>
      simp only [hg] at hc
      exact Except.noConfusion hc
    | tableEntry te =>
      simp only [hg] at hc
      exact Except.noConfusion hc
    | routerIf rr =>
      simp only [hg] at hc
      exact Except.noConfusion hc
    | external k =>
      simp only [hg] at hc
      exact Except.noConfusion hc

theorem setTableEntryAttr_ok_inv (s : State) (h : Handle)
    (a : sai_hostif_table_entry_attr_t) (s' : State)
    (hc : setTableEntryAttr s h a = .ok s') : s' = s := by
  unfold setTableEntryAttr at hc
  cases hg : get s h with
  | error e =>
    rw [hg] at hc
    cases e <;> exact Except.noConfusion hc
  | ok ob =>
    cases ob with
    | tableEntry te =>
      simp only [hg] at hc
      split at hc
      · exact (Except.ok.inj hc).symm
      · exact Except.noConfusion hc
    | trapGroup g =>
      simp only [hg] at hc
      exact Except.noConfusion hc
    | trap t =>
      simp only [hg] at hc
      exact Except.noConfusion hc
    | hostif hi =>
      simp only [hg] at hc
      exact Except.noConfusion hc
    | routerIf rr =>
      simp only [hg] at hc
      exact Except.noConfusion hc
    | external k =>
      simp only [hg] at hc
      exact Except.noConfusion hc

theorem setRouterIfAttr_ok_inv (s : State) (h : Handle)
    (a : sai_router_interface_attr_t) (s' : State)
    (hc : setRouterIfAttr s h a = .ok s') : s' = s := by
  unfold setRouterIfAttr at hc
  cases hg : get s h with
  | error e =>
    rw [hg] at hc
    cases e <;> exact Except.noConfusion hc
  | ok ob =>
    cases ob with
    | routerIf rr =>
      simp only [hg] at hc
      split at hc
      · exact (Except.ok.inj hc).symm
      · exact Except.noConfusion hc
    | trapGroup g =>
      simp only [hg] at hc
      exact Except.noConfusion hc
    | trap t =>
      simp only [hg] at hc
      exact Except.noConfusion hc
    | hostif hi =>
      simp only [hg] at hc
      exact Except.noConfusion hc
    | tableEntry te =>
      simp only [hg] at hc
      exact Except.noConfusion hc
    | external k =>
      simp only [hg] at hc
      exact Except.noConfusion hc

theorem step_genMono (s s' : State) (hs : Step s s') (i : Nat) :
    genAt s i ≤ genAt s' i ∧ slotCount s ≤ slotCount s' := by
  cases hs with
  | addExternal k =>
    simp only [addExternal]
    exact ⟨Nat.le_of_eq (genAt_alloc s _ i).symm, slotCount_alloc s _⟩
  | createTrapGroup f r hok =>
    rw [createTrapGroup_ok_inv s f r hok]
    exact ⟨Nat.le_of_eq (genAt_alloc s _ i).symm, slotCount_alloc s _⟩
  | createTrap f r hok =>
    rw [createTrap_ok_inv s f r hok]
    exact ⟨Nat.le_of_eq (genAt_alloc s _ i).symm, slotCount_alloc s _⟩
  | createHostif f r hok =>
    rw [createHostif_ok_inv s f r hok]
    exact ⟨Nat.le_of_eq (genAt_alloc s _ i).symm, slotCount_alloc s _⟩
  | createRouterIf f r hok =>
    rw [createRouterIf_ok_inv s f r hok]
    exact ⟨Nat.le_of_eq (genAt_alloc s _ i).symm, slotCount_alloc s _⟩
  | createTableEntry f r hok =>
    rw [(createTableEntry_ok_inv s f r hok).1]
    exact ⟨Nat.le_of_eq (genAt_alloc s _ i).symm, slotCount_alloc s _⟩
  | destroy h s' hok =>
    rw [(destroy_ok_inv s h s' hok).1]
    exact ⟨genAt_destroy_ge s h.slot i,
      Nat.le_of_eq (slotCount_destroy s h.slot).symm⟩
  | setTrapGroup h a s' hok =>
    obtain ⟨g, he⟩ := setTrapGroup_ok_inv s h a s' hok
    rw [he]
    exact ⟨Nat.le_of_eq (genAt_setObj s h.slot _ i).symm,
      Nat.le_of_eq (slotCount_setObj s h.slot _).symm⟩
  | setTrap h a s' hok =>
    obtain ⟨t, he⟩ := setTrap_ok_inv s h a s' hok
    rw [he]
    exact ⟨Nat.le_of_eq (genAt_setObj s h.slot _ i).symm,
      Nat.le_of_eq (slotCount_setObj s h.slot _).symm⟩
  | setHostifAttr h a s' hok =>
    rw [setHostifAttr_ok_inv s h a s' hok]
    exact ⟨Nat.le_refl _, Nat.le_refl _⟩
  | setTableEntryAttr h a s' hok =>
    rw [setTableEntryAttr_ok_inv s h a s' hok]
    exact ⟨Nat.le_refl _, Nat.le_refl _⟩
  | setRouterIfAttr h a s' hok =>
    rw [setRouterIfAttr_ok_inv s h a s' hok]
    exact ⟨Nat.le_refl _, Nat.le_refl _⟩

theorem reach_genMono (s s' : State) (hr : Reach s s') (i : Nat) :
    genAt s i ≤ genAt s' i ∧ slotCount s ≤ slotCount s' := by
  unfold Reach at hr
  induction hr with
  | refl => exact ⟨Nat.le_refl _, Nat.le_refl _⟩
  | tail hab hbc ih =>
    exact ⟨Nat.le_trans ih.1 (step_genMono _ _ hbc i).1,
      Nat.le_trans ih.2 (step_genMono _ _ hbc i).2⟩

theorem stateInv_alloc (s : State) (o : Obj) (hs : stateInv s)
    (ho : ∀ te, o = .tableEntry te → entryShapeOKb te = true) :
    stateInv (alloc s o).1 := by
  intro p hp
  obtain ⟨h, te⟩ := p
  rw [mem_liveEntries] at hp
  rcases livePairs_alloc_cases s o h (.tableEntry te) hp with hin | heq
  · exact hs (h, te) ((mem_liveEntries s h te).mpr hin)
  · exact ho te heq.symm

theorem stateInv_destroy (s : State) (i : Nat) (hs : stateInv s) :
    stateInv ⟨destroySlots s.slots i⟩ := by
  intro p hp
  obtain ⟨h, te⟩ := p
  rw [mem_liveEntries] at hp
  have hin := livePairs_destroy_cases s i h (.tableEntry te) hp
  exact hs (h, te) ((mem_liveEntries s h te).mpr hin.1)

theorem stateInv_setObj (s : State) (i : Nat) (o : Obj) (hs : stateInv s)
    (ho : ∀ te, o = .tableEntry te → entryShapeOKb te = true) :
    stateInv ⟨setObjSlots s.slots i o⟩ := by
  intro p hp
  obtain ⟨h, te⟩ := p
  rw [mem_liveEntries] at hp
  rcases livePairs_setObj_cases s i o h (.tableEntry te) hp with hin | heq
  · exact hs (h, te) ((mem_liveEntries s h te).mpr hin)
  · exact ho te heq.symm

theorem checks_imply_shape (s : State) (f : TableEntry)
    (h1 : entryShapeCheck f = .ok ()) (h2 : entryChanCheck s f = .ok ()) :
    entryShapeOKb f = true := by
  unfold entryShapeOKb
  rw [Bool.and_eq_true]
  constructor
  · unfold entryShapeCheck at h1
    cases hty : f.entry_type <;> rw [hty] at h1 <;>
      cases hmo : f.match_object <;> rw [hmo] at h1 <;>
      cases hmt : f.match_trap <;> rw [hmt] at h1 <;>
      simp_all
  · unfold entryChanCheck at h2
    cases hch : channelNeedsHostif f.channel <;> rw [hch] at h2 <;>
      cases hta : f.target_host_interface <;> rw [hta] at h2 <;> simp_all

theorem stateInv_step (s s' : State) (hst : Step s s') (hs : stateInv s) :
    stateInv s' := by
  cases hst with
  | addExternal k =>
    exact stateInv_alloc s _ hs (fun te h => Obj.noConfusion h)
  | createTrapGroup f r hok =>
    rw [createTrapGroup_ok_inv s f r hok]
    exact stateInv_alloc s _ hs (fun te h => Obj.noConfusion h)
  | createTrap f r hok =>
    rw [createTrap_ok_inv s f r hok]
    exact stateInv_alloc s _ hs (fun te h => Obj.noConfusion h)
  | createHostif f r hok =>
    rw [createHostif_ok_inv s f r hok]
    exact stateInv_alloc s _ hs (fun te h => Obj.noConfusion h)
  | createRouterIf f r hok =>
    rw [createRouterIf_ok_inv s f r hok]
    exact stateInv_alloc s _ hs (fun te h => Obj.noConfusion h)
  | createTableEntry f r hok =>
    obtain ⟨hr, hsh, hch⟩ := createTableEntry_ok_inv s f r hok
    rw [hr]
    refine stateInv_alloc s _ hs (fun te h => ?_)
    have hfe : f = te := by
      injection h
    rw [← hfe]
    exact checks_imply_shape s f hsh hch
  | destroy h s' hok =>
    rw [(destroy_ok_inv s h s' hok).1]
    exact stateInv_destroy s h.slot hs
  | setTrapGroup h a s' hok =>
    obtain ⟨g, he⟩ := setTrapGroup_ok_inv s h a s' hok
    rw [he]
    exact stateInv_setObj s h.slot _ hs (fun te hh => Obj.noConfusion hh)
  | setTrap h a s' hok =>
    obtain ⟨t, he⟩ := setTrap_ok_inv s h a s' hok
    rw [he]
    exact stateInv_setObj s h.slot _ hs (fun te hh => Obj.noConfusion hh)
  | setHostifAttr h a s' hok =>
    rw [setHostifAttr_ok_inv s h a s' hok]
    exact hs
  | setTableEntryAttr h a s' hok =>
    rw [setTableEntryAttr_ok_inv s h a s' hok]
    exact hs
  | setRouterIfAttr h a s' hok =>
    rw [setRouterIfAttr_ok_inv s h a s' hok]
    exact hs

/-- Claim C6: every live TableEntry satisfies exactly one of the three
entry_type-dictated shapes (wildcard: neither match field; trap_id:
match_trap only; port/lag/vlan: both match fields) and carries a
target_host_interface exactly when its channel is fd or genetlink; create
rejects any attribute set violating this shape, and the invariant is
preserved by every operation of the engine. -/
theorem table_entry_shape_invariant :
    (∀ (s : State) (f : TableEntry), entryShapeOKb f = false →
      ∃ e, createTableEntry s f = .error e) ∧
    (∀ s : State, stateInv s →
      (∀ k, stateInv (addExternal s k).1) ∧
      (∀ f r, createTrapGroup s f = .ok r → stateInv r.1) ∧
      (∀ f r, createTrap s f = .ok r → stateInv r.1) ∧
      (∀ f r, createHostif s f = .ok r → stateInv r.1) ∧
      (∀ f r, createRouterIf s f = .ok r → stateInv r.1) ∧
      (∀ f r, createTableEntry s f = .ok r → stateInv r.1) ∧
      (∀ h s2, destroy s h = .ok s2 → stateInv s2) ∧
      (∀ h a s2, setTrapGroup s h a = .ok s2 → stateInv s2) ∧
      (∀ h a s2, setTrap s h a = .ok s2 → stateInv s2) ∧
      (∀ h a s2, setHostifAttr s h a = .ok s2 → stateInv s2) ∧
      (∀ h a s2, setTableEntryAttr s h a = .ok s2 → stateInv s2) ∧
      (∀ h a s2, setRouterIfAttr s h a = .ok s2 → stateInv s2)) ∧
    (∀ s s2 : State, stateInv s → Reach s s2 → stateInv s2) := by
  have hreach : ∀ s s2 : State, stateInv s → Reach s s2 → stateInv s2 := by
    intro s s2 hs hr
    unfold Reach at hr
    induction hr with
    | refl => exact hs
    | tail hab hbc ih => exact stateInv_step _ _ hbc ih
  refine ⟨?_, ?_, hreach⟩
  · intro s f hbad
    unfold createTableEntry
    cases h1 : entryShapeCheck f with
    | error e => exact ⟨e, rfl⟩
    | ok u =>
      cases h2 : entryRefCheck s f with
      | error e => exact ⟨e, rfl⟩
      | ok u2 =>
        cases h3 : entryChanCheck s f with
        | error e => exact ⟨e, rfl⟩
        | ok u3 =>
          exfalso
          cases u
          cases u3
          rw [checks_imply_shape s f h1 h3] at hbad
          exact Bool.noConfusion hbad
  · intro s hs
    refine ⟨?_, ?_, ?_, ?_, ?_, ?_, ?_, ?_, ?_, ?_, ?_, ?_⟩
    · intro k
      exact stateInv_step s _ (Step.addExternal s k) hs
    · intro f r hok
      exact stateInv_step s _ (Step.createTrapGroup s f r hok) hs
    · intro f r hok
      exact stateInv_step s _ (Step.createTrap s f r hok) hs
    · intro f r hok
      exact stateInv_step s _ (Step.createHostif s f r hok) hs
    · intro f r hok
      exact stateInv_step s _ (Step.createRouterIf s f r hok) hs
    · intro f r hok
      exact stateInv_step s _ (Step.createTableEntry s f r hok) hs
    · intro h s2 hok
      exact stateInv_step s _ (Step.destroy s h s2 hok) hs
    · intro h a s2 hok
      exact stateInv_step s _ (Step.setTrapGroup s h a s2 hok) hs
    · intro h a s2 hok
      exact stateInv_step s _ (Step.setTrap s h a s2 hok) hs
    · intro h a s2 hok
      exact stateInv_step s _ (Step.setHostifAttr s h a s2 hok) hs
    · intro h a s2 hok
      exact stateInv_step s _ (Step.setTableEntryAttr s h a s2 hok) hs
    · intro h a s2 hok
      exact stateInv_step s _ (Step.setRouterIfAttr s h a s2 hok) hs

/-- Witness for C6 at a concrete configuration: the demo state satisfies
the invariant, creating a valid lag entry preserves it, and a wildcard
entry carrying a match_trap is rejected. -/
theorem table_entry_shape_invariant_witness :
    stateInv (alloc demoState
      (.tableEntry ⟨.LAG, some demoPortB, some demoTrapY, .CB, none⟩)).1 ∧
    (∃ e, createTableEntry demoState
      ⟨.WILDCARD, none, some demoTrapX, .CB, none⟩ = .error e) := by
  have hs : stateInv demoState := by
    unfold stateInv
    decide
  constructor
  · exact (table_entry_shape_invariant.2.1 demoState hs).2.2.2.2.2.1
      ⟨.LAG, some demoPortB, some demoTrapY, .CB, none⟩
      (alloc demoState
        (.tableEntry ⟨.LAG, some demoPortB, some demoTrapY, .CB, none⟩)) rfl
  · exact table_entry_shape_invariant.1 demoState
      ⟨.WILDCARD, none, some demoTrapX, .CB, none⟩ (by decide)

/-- Claim C8: a successful destroy bumps the slot generation, so the retained
handle is detected as StaleHandle by get in the resulting state and in
every state reachable from it by further engine operations, and any handle
minted later at the same slot differs from the destroyed handle (no
aliasing of a future object at the same slot). -/
theorem destroy_invalidates_handle (s : State) (h : Handle) (s' : State)
    (hd : destroy s h = .ok s') :
    get s' h = .error .StaleHandle ∧
    (∀ s2, Reach s' s2 → get s2 h = .error .StaleHandle) ∧
    (∀ s2 (o : Obj), Reach s' s2 → (alloc s2 o).2.slot = h.slot →
      (alloc s2 o).2 ≠ h) := by
  obtain ⟨he, ⟨ob, hg⟩, -⟩ := destroy_ok_inv s h s' hd
  have hup := (get_ok_iff s h ob).mp hg
  obtain ⟨sl, h1, h2, h3, h4⟩ := hup
  have hslot_lt : h.slot < slotCount s := by
    by_contra hge
    have : s.slots.get? h.slot = none :=
      List.get?_eq_none.mpr (Nat.le_of_not_lt hge)
    rw [this] at h1
    exact Option.noConfusion h1
  have hgen' : genAt s' h.slot = h.generation + 1 := by
    rw [he]
    unfold genAt
    rw [show (State.mk (destroySlots s.slots h.slot)).slots =
      destroySlots s.slots h.slot from rfl]
    rw [destroySlots_get_self, h1]
    simp [h3]
  have hcount' : h.slot < slotCount s' := by
    rw [he, slotCount_destroy]
    exact hslot_lt
  have hstale : ∀ s2, Reach s' s2 → get s2 h = .error .StaleHandle := by
    intro s2 hr
    have hmono := reach_genMono s' s2 hr h.slot
    have hgen2 : h.generation + 1 ≤ genAt s2 h.slot := by
      rw [← hgen']
      exact hmono.1
    have hcount2 : h.slot < slotCount s2 := Nat.lt_of_lt_of_le hcount' hmono.2
    unfold get
    cases hq : s2.slots.get? h.slot with
    | none =>
      exfalso
      have := List.get?_eq_none.mp hq
      exact absurd hcount2 (Nat.not_lt_of_le this)
    | some sl2 =>
      have hg2 : sl2.generation = genAt s2 h.slot := by
        unfold genAt
        rw [hq]
      have hne : ¬ (sl2.generation = h.generation) := by
        rw [hg2]
        omega
      simp [hne]
  refine ⟨hstale s' (show Reach s' s' from Relation.ReflTransGen.refl),
    hstale, ?_⟩
  intro s2 o hr hsl heqh
  have hmono := reach_genMono s' s2 hr h.slot
  have hgen2 : h.generation + 1 ≤ genAt s2 h.slot := by
    rw [← hgen']
    exact hmono.1
  have hcount2 : h.slot < slotCount s2 := Nat.lt_of_lt_of_le hcount' hmono.2
  have hgenh : (alloc s2 o).2.generation = h.generation :=
    congrArg Handle.generation heqh
  rcases allocSlots_old_self s2.slots o with hold | ⟨hlen, hzero⟩
  · have hidx : (allocSlots s2.slots o).2.1 = h.slot := hsl
    rw [hidx] at hold
    have : genAt s2 h.slot = (allocSlots s2.slots o).2.2 := by
      unfold genAt
      rw [hold]
    rw [this] at hgen2
    have : (alloc s2 o).2.generation = (allocSlots s2.slots o).2.2 := rfl
    omega
  · have hidx : (allocSlots s2.slots o).2.1 = h.slot := hsl
    rw [hidx] at hlen
    have hc : h.slot < s2.slots.length := hcount2
    omega

/-- Witness for C8: destroying the demo trap-id entry leaves its handle
stale, and a fresh allocation reusing the freed slot mints a different
handle. -/
theorem destroy_invalidates_handle_witness :
    get (State.mk (destroySlots demoState.slots demoEZ.slot)) demoEZ =
      .error .StaleHandle ∧
    (alloc (State.mk (destroySlots demoState.slots demoEZ.slot))
      (.external .port)).2 ≠ demoEZ := by
  have hd : destroy demoState demoEZ =
      .ok (State.mk (destroySlots demoState.slots demoEZ.slot)) := rfl
  have H := destroy_invalidates_handle demoState demoEZ _ hd
  exact ⟨H.1, H.2.2 _ (.external .port)
    (show Reach _ _ from Relation.ReflTransGen.refl) rfl⟩

/-- Claim C9: for every object kind, a successful create followed by get on the
new handle returns exactly the supplied fields plus the documented
defaults for omitted optional fields: TrapGroup admin_state defaults to
true, queue_index to 0, policer to null; a Trap priority defaults to the
switch-wide ACL minimum-priority constant. -/
theorem create_get_roundtrip (s : State) :
    (∀ f r, createTrapGroup s f = .ok r →
      get r.1 r.2 = .ok (.trapGroup
        ⟨f.admin_state.getD true, f.queue_index.getD 0, f.policer⟩)) ∧
    (∀ f r, createTrap s f = .ok r →
      get r.1 r.2 = .ok (.trap ⟨f.trap_type, f.packet_action,
        f.priority.getD SAI_SWITCH_ATTR_ACL_ENTRY_MINIMUM_PRIORITY⟩)) ∧
    (∀ f r, createHostif s f = .ok r → get r.1 r.2 = .ok (.hostif f)) ∧
    (∀ f r, createTableEntry s f = .ok r →
      get r.1 r.2 = .ok (.tableEntry f)) ∧
    (∀ f r, createRouterIf s f = .ok r → get r.1 r.2 = .ok (.routerIf f)) := by
  refine ⟨?_, ?_, ?_, ?_, ?_⟩
  · intro f r hok
    rw [createTrapGroup_ok_inv s f r hok]
    exact get_alloc_self s _
  · intro f r hok
    rw [createTrap_ok_inv s f r hok]
    exact get_alloc_self s _
  · intro f r hok
    rw [createHostif_ok_inv s f r hok]
    exact get_alloc_self s _
  · intro f r hok
    rw [(createTableEntry_ok_inv s f r hok).1]
    exact get_alloc_self s _
  · intro f r hok
    rw [createRouterIf_ok_inv s f r hok]
    exact get_alloc_self s _

/-- Witness for C9: a TrapGroup created with no attributes reads back
admin_state = true, queue_index = 0 and no policer; a Trap created without
priority reads back the ACL minimum-priority default. -/
theorem create_get_roundtrip_witness :
    get (alloc demoState (.trapGroup ⟨true, 0, none⟩)).1
        (alloc demoState (.trapGroup ⟨true, 0, none⟩)).2 =
      .ok (.trapGroup ⟨true, 0, none⟩) ∧
    get (alloc demoState (.trap ⟨.ARP_RESPONSE, .TRAP,
          SAI_SWITCH_ATTR_ACL_ENTRY_MINIMUM_PRIORITY⟩)).1
        (alloc demoState (.trap ⟨.ARP_RESPONSE, .TRAP,
          SAI_SWITCH_ATTR_ACL_ENTRY_MINIMUM_PRIORITY⟩)).2 =
      .ok (.trap ⟨.ARP_RESPONSE, .TRAP,
        SAI_SWITCH_ATTR_ACL_ENTRY_MINIMUM_PRIORITY⟩) := by
  constructor
  · exact (create_get_roundtrip demoState).1 ⟨none, none, none⟩
      (alloc demoState (.trapGroup ⟨true, 0, none⟩)) rfl
  · exact (create_get_roundtrip demoState).2.1 ⟨.ARP_RESPONSE, .TRAP, none⟩
      (alloc demoState (.trap ⟨.ARP_RESPONSE, .TRAP,
        SAI_SWITCH_ATTR_ACL_ENTRY_MINIMUM_PRIORITY⟩)) rfl

/-- Claim C10: every standard attribute of HostInterface, TableEntry and
RouterInterface is create-only (set_attribute on a live object of those
kinds is Immutable for every attribute), in contrast to TrapGroup, whose
attributes are all CREATE_AND_SET and settable, and Trap, whose non-key
attributes are CREATE_AND_SET while the key trap_type is Immutable. -/
theorem create_only_attributes :
    (∀ a : sai_hostif_attr_t,
      SaiAttrFlag.CREATE_ONLY ∈ sai_hostif_attr_flags a ∧
      SaiAttrFlag.CREATE_AND_SET ∉ sai_hostif_attr_flags a) ∧
    (∀ a : sai_hostif_table_entry_attr_t,
      SaiAttrFlag.CREATE_ONLY ∈ sai_hostif_table_entry_attr_flags a ∧
      SaiAttrFlag.CREATE_AND_SET ∉ sai_hostif_table_entry_attr_flags a) ∧
    (∀ a : sai_router_interface_attr_t,
      SaiAttrFlag.CREATE_ONLY ∈ sai_router_interface_attr_flags a ∧
      SaiAttrFlag.CREATE_AND_SET ∉ sai_router_interface_attr_flags a) ∧
    (∀ s h hi a, get s h = .ok (.hostif hi) →
      setHostifAttr s h a = .error .Immutable) ∧
    (∀ s h te a, get s h = .ok (.tableEntry te) →
      setTableEntryAttr s h a = .error .Immutable) ∧
    (∀ s h rr a, get s h = .ok (.routerIf rr) →
      setRouterIfAttr s h a = .error .Immutable) ∧
    (∀ a : sai_hostif_trap_group_attr_t,
      SaiAttrFlag.CREATE_AND_SET ∈ sai_hostif_trap_group_attr_flags a) ∧
    (∀ a : sai_hostif_trap_attr_t, a ≠ .TRAP_TYPE →
      SaiAttrFlag.CREATE_AND_SET ∈ sai_hostif_trap_attr_flags a) ∧
    (∀ s h t v, get s h = .ok (.trap t) →
      setTrap s h (.trapType v) = .error .Immutable) ∧
    (∀ s h g v, get s h = .ok (.trapGroup g) →
      setTrapGroup s h (.adminState v) =
        .ok ⟨setObjSlots s.slots h.slot
          (.trapGroup {g with admin_state := v})⟩) := by
  refine ⟨fun a => by cases a <;> exact ⟨by decide, by decide⟩,
    fun a => by cases a <;> exact ⟨by decide, by decide⟩,
    fun a => by cases a <;> exact ⟨by decide, by decide⟩, ?_, ?_, ?_,
    fun a => by cases a <;> decide,
    fun a ha => by cases a <;> first | exact absurd rfl ha | decide,
    ?_, ?_⟩
  · intro s h hi a hl
    cases a <;> simp [setHostifAttr, hl, sai_hostif_attr_flags]
  · intro s h te a hl
    cases a <;> simp [setTableEntryAttr, hl, sai_hostif_table_entry_attr_flags]
  · intro s h rr a hl
    cases a <;> simp [setRouterIfAttr, hl, sai_router_interface_attr_flags]
  · intro s h t v hl
    simp [setTrap, hl]
  · intro s h g v hl
    simp [setTrapGroup, hl]

/-- Witness for C10: in the demo state, every set on the live host
interface is Immutable, the Trap key attribute is Immutable, and the
TrapGroup admin_state set succeeds. -/
theorem create_only_attributes_witness :
    setHostifAttr demoState demoHostif .NAME = .error .Immutable ∧
    setTableEntryAttr demoState demoE1 .CHANNEL_TYPE = .error .Immutable ∧
    setRouterIfAttr demoState demoRif .TYPE = .error .Immutable ∧
    setTrap demoState demoTrapX (.trapType .BGPV6) = .error .Immutable ∧
    setTrapGroup demoState demoGroup (.adminState false) =
      .ok ⟨setObjSlots demoState.slots demoGroup.slot
        (.trapGroup ⟨false, 0, none⟩)⟩ := by
  have H := create_only_attributes
  refine ⟨H.2.2.2.1 demoState demoHostif ⟨.FD, none, none⟩ .NAME rfl,
    H.2.2.2.2.1 demoState demoE1
      ⟨.PORT, some demoPortA, some demoTrapX, .CB, none⟩ .CHANNEL_TYPE rfl,
    H.2.2.2.2.2.1 demoState demoRif ⟨demoVr, .LOOPBACK, none⟩ .TYPE rfl,
    H.2.2.2.2.2.2.2.2.1 demoState demoTrapX ⟨.LLDP, .TRAP, 0⟩ .BGPV6 rfl,
    H.2.2.2.2.2.2.2.2.2 demoState demoGroup ⟨true, 0, none⟩ false rfl⟩

/-- Claim C5: HostInterface creation enforces the per-kind conditional shape —
a name is required exactly for the netdev and genetlink kinds (an fd-kind
interface supplying a name is rejected as InvalidValue), and bound_object
is required exactly for netdev (forbidden for fd and genetlink). -/
theorem hostif_field_shape (s : State) (f : HostIf) :
    (f.kind = .FD → f.name ≠ none →
      createHostif s f = .error .InvalidValue) ∧
    (f.kind = .FD → f.bound_object ≠ none →
      createHostif s f = .error .InvalidValue) ∧
    (f.kind = .NETDEV → f.name = none →
      createHostif s f = .error .InvalidValue) ∧
    (f.kind = .GENETLINK → f.name = none →
      createHostif s f = .error .InvalidValue) ∧
    (f.kind = .NETDEV → f.bound_object = none →
      createHostif s f = .error .InvalidValue) ∧
    (f.kind = .GENETLINK → f.bound_object ≠ none →
      createHostif s f = .error .InvalidValue) := by
  obtain ⟨k, b, n⟩ := f
  refine ⟨?_, ?_, ?_, ?_, ?_, ?_⟩ <;> intro hk hcond <;> subst hk
  · cases n with
    | none => exact absurd rfl hcond
    | some nm => cases b <;> simp [createHostif, hostifShapeCheck]
  · cases b with
    | none => exact absurd rfl hcond
    | some bo => cases n <;> simp [createHostif, hostifShapeCheck]
  · simp only at hcond
    subst hcond
    cases b <;> simp [createHostif, hostifShapeCheck]
  · simp only at hcond
    subst hcond
    cases b <;> simp [createHostif, hostifShapeCheck]
  · simp only at hcond
    subst hcond
    cases n <;> simp [createHostif, hostifShapeCheck]
  · cases b with
    | none => exact absurd rfl hcond
    | some bo => cases n <;> simp [createHostif, hostifShapeCheck]

/-- Witness for C5: an fd host interface with a name, and a netdev host
interface without one, are both rejected as InvalidValue. -/
theorem hostif_field_shape_witness :
    createHostif demoState ⟨.FD, none, some "x"⟩ = .error .InvalidValue ∧
    createHostif demoState ⟨.NETDEV, some demoPortA, none⟩ =
      .error .InvalidValue := by
  refine ⟨(hostif_field_shape demoState ⟨.FD, none, some "x"⟩).1 rfl
    (by simp), (hostif_field_shape demoState
      ⟨.NETDEV, some demoPortA, none⟩).2.2.1 rfl rfl⟩

/-- Counterexample for C7: the accepted object types of a netdev
HostInterface bound_object are PORT, LAG, VLAN and SYSTEM_PORT
(saihostif.h line 368) — RouterInterface is not among them, and creating a
netdev host interface bound to a live RouterInterface is rejected as
InvalidValue, not validated as a live reference. -/
theorem hostif_router_interface_counterexample :
    get demoState demoRif = .ok (.routerIf ⟨demoVr, .LOOPBACK, none⟩) ∧
    ObjType.routerIf ∉ hostifObjIdAcceptedTypes ∧
    createHostif demoState ⟨.NETDEV, some demoRif, some "eth0"⟩ =
      .error .InvalidValue := ⟨rfl, by decide, rfl⟩

/-- Claim C7 as amended: a netdev HostInterface bound_object must carry one of
the accepted tags PORT, LAG, VLAN, SYSTEM_PORT; a RouterInterface-tagged
handle is rejected as InvalidValue even when live, while a handle with an
accepted tag that is not live is rejected as InvalidReference. -/
theorem hostif_bound_object_types (s : State) (f : HostIf) (b : Handle)
    (hb : f.bound_object = some b) :
    (b.tag = .routerIf → hostifShapeCheck f = .ok () →
      createHostif s f = .error .InvalidValue) ∧
    (b.tag ∈ hostifObjIdAcceptedTypes → isLive s b = false →
      hostifShapeCheck f = .ok () →
      createHostif s f = .error .InvalidReference) := by
  constructor
  · intro htag hshape
    have hnot : b.tag ∉ hostifObjIdAcceptedTypes := by
      rw [htag]
      decide
    simp [createHostif, hshape, checkOptRef, hb, hnot]
  · intro htag hdead hshape
    simp [createHostif, hshape, checkOptRef, hb, htag, hdead]

/-- Witness for the amended C7: binding a netdev interface to the live
demo RouterInterface fails as InvalidValue, and binding it to a stale
port handle fails as InvalidReference. -/
theorem hostif_bound_object_types_witness :
    createHostif demoState ⟨.NETDEV, some demoRif, some "x"⟩ =
      .error .InvalidValue ∧
    createHostif demoState ⟨.NETDEV, some ⟨0, 5, .port⟩, some "x"⟩ =
      .error .InvalidReference := by
  refine ⟨(hostif_bound_object_types demoState
      ⟨.NETDEV, some demoRif, some "x"⟩ demoRif rfl).1 rfl rfl,
    (hostif_bound_object_types demoState
      ⟨.NETDEV, some ⟨0, 5, .port⟩, some "x"⟩ ⟨0, 5, .port⟩ rfl).2
      (by decide) rfl rfl⟩

/-- Claim C2: a Trap priority is accepted only while packet_action is trap or
copy — supplying priority at create with any other action, or setting it
on a live trap whose action is not trap/copy, fails with InvalidValue
rather than being silently ignored, and the same set succeeds after
packet_action is changed to trap. -/
theorem trap_priority_validity (s : State) (h : Handle) (t : Trap) (v : Nat)
    (hl : get s h = .ok (.trap t)) :
    (priorityValidOn t.packet_action = false →
      setTrap s h (.priorityVal v) = .error .InvalidValue) ∧
    (priorityValidOn t.packet_action = true →
      setTrap s h (.priorityVal v) =
        .ok ⟨setObjSlots s.slots h.slot (.trap {t with priority := v})⟩) ∧
    (∀ f : TrapCreateFields, trapTypeTaken s f.trap_type = false →
      f.priority.isSome = true → priorityValidOn f.packet_action = false →
      createTrap s f = .error .InvalidValue) ∧
    (∀ s2, setTrap s h (.packetAction .TRAP) = .ok s2 →
      setTrap s2 h (.priorityVal v) =
        .ok ⟨setObjSlots s2.slots h.slot
          (.trap ⟨t.trap_type, .TRAP, v⟩)⟩) := by
  have htag : h.tag = ObjType.trap := by
    obtain ⟨sl, h1, h2, h3, h4⟩ := (get_ok_iff s h (.trap t)).mp hl
    exact h4
  refine ⟨?_, ?_, ?_, ?_⟩
  · intro hbad
    simp [setTrap, hl, hbad]
  · intro hgood
    simp [setTrap, hl, hgood]
  · intro f hdup hsome hbad
    simp [createTrap, hdup, hsome, hbad]
  · intro s2 hset
    have hs2 : s2 =
        ⟨setObjSlots s.slots h.slot
          (.trap {t with packet_action := .TRAP})⟩ := by
      simp only [setTrap, hl] at hset
      exact (Except.ok.inj hset).symm
    subst hs2
    have hget2 : get ⟨setObjSlots s.slots h.slot
        (.trap {t with packet_action := .TRAP})⟩ h =
        .ok (.trap {t with packet_action := .TRAP}) :=
      get_setObj_self s h _ _ hl htag.symm
    simp [setTrap, hget2, priorityValidOn]

/-- Witness for C2: setting priority on the demo trap with packet_action
forward fails as InvalidValue, and the same set succeeds after the action
is changed to trap. -/
theorem trap_priority_validity_witness :
    setTrap demoState demoTrapF (.priorityVal 7) = .error .InvalidValue ∧
    setTrap (State.mk (setObjSlots demoState.slots demoTrapF.slot
        (.trap ⟨.ARP_REQUEST, .TRAP, 0⟩))) demoTrapF (.priorityVal 7) =
      .ok (State.mk (setObjSlots (setObjSlots demoState.slots demoTrapF.slot
        (.trap ⟨.ARP_REQUEST, .TRAP, 0⟩)) demoTrapF.slot
        (.trap ⟨.ARP_REQUEST, .TRAP, 7⟩))) := by
  have H := trap_priority_validity demoState demoTrapF
    ⟨.ARP_REQUEST, .FORWARD, 0⟩ 7 rfl
  exact ⟨H.1 rfl, H.2.2.2 _ rfl⟩

/-- Claim C3: creation preserving the uniqueness invariants fails with
DuplicateKey — creating a Trap whose trap_type is already registered by a
live Trap fails with DuplicateKey, and creating a second wildcard-type
TableEntry while one is live fails with DuplicateKey. -/
theorem uniqueness_duplicate_key (s : State) :
    (∀ (h : Handle) (t : Trap) (f : TrapCreateFields),
      get s h = .ok (.trap t) → f.trap_type = t.trap_type →
      createTrap s f = .error .DuplicateKey) ∧
    (∀ (h : Handle) (te : TableEntry) (f : TableEntry),
      (h, te) ∈ liveEntries s → te.entry_type = .WILDCARD →
      te.match_object = none → te.match_trap = none →
      f.entry_type = .WILDCARD → f.match_object = none →
      f.match_trap = none → entryChanCheck s f = .ok () →
      createTableEntry s f = .error .DuplicateKey) := by
  constructor
  · intro h t f hl hft
    have htaken : trapTypeTaken s f.trap_type = true := by
      unfold trapTypeTaken
      rw [List.any_eq_true]
      refine ⟨(h, .trap t), (get_ok_iff_mem s h (.trap t)).mp hl, ?_⟩
      simp [hft]
    simp [createTrap, htaken]
  · intro h te f hm hwe hwo hwt hfe hfo hft hchan
    have h1 : entryShapeCheck f = .ok () := by
      simp [entryShapeCheck, hfe, hfo, hft]
    have h2 : entryRefCheck s f = .ok () := by
      simp [entryRefCheck, hfo, hft, checkOptRef]
    have h4 : entryDupCheck s f = .error .DuplicateKey := by
      unfold entryDupCheck
      have hany : (liveEntries s).any (fun p =>
          decide (p.2.entry_type = f.entry_type) &&
          decide (p.2.match_object = f.match_object) &&
          decide (p.2.match_trap = f.match_trap)) = true := by
        rw [List.any_eq_true]
        refine ⟨(h, te), hm, ?_⟩
        simp [hwe, hwo, hwt, hfe, hfo, hft]
      rw [hany]
      rfl
    simp [createTableEntry, h1, h2, hchan, h4]

/-- Witness for C3: a second LLDP trap and a second wildcard entry are
both rejected as DuplicateKey in the demo state. -/
theorem uniqueness_duplicate_key_witness :
    createTrap demoState ⟨.LLDP, .DROP, none⟩ = .error .DuplicateKey ∧
    createTableEntry demoState ⟨.WILDCARD, none, none, .CB, none⟩ =
      .error .DuplicateKey := by
  have H := uniqueness_duplicate_key demoState
  exact ⟨H.1 demoTrapX ⟨.LLDP, .TRAP, 0⟩ ⟨.LLDP, .DROP, none⟩ rfl rfl,
    H.2 demoE3 ⟨.WILDCARD, none, none, .CB, none⟩
      ⟨.WILDCARD, none, none, .CB, none⟩ (by decide) rfl rfl rfl rfl rfl
      rfl rfl⟩

/-- Claim C4: removing a live Trap fails with InUse naming a live blocking
object that references it while any live TableEntry has it as match_trap;
it succeeds when nothing references it; and it succeeds immediately after
the single referencing TableEntry is removed. -/
theorem trap_remove_in_use (s : State) (h : Handle) (t : Trap)
    (hl : get s h = .ok (.trap t)) :
    (∀ e te, (e, te) ∈ liveEntries s → te.match_trap = some h →
      ∃ b ob, destroy s h = .error (.InUse b) ∧ (b, ob) ∈ livePairs s ∧
        h ∈ refsOf ob) ∧
    ((∀ p ∈ livePairs s, h ∉ refsOf p.2) →
      destroy s h = .ok ⟨destroySlots s.slots h.slot⟩) ∧
    (∀ e te s2, (e, te) ∈ liveEntries s → te.match_trap = some h →
      (∀ p ∈ livePairs s, h ∈ refsOf p.2 → p.1 = e) →
      destroy s e = .ok s2 →
      destroy s2 h = .ok ⟨destroySlots s2.slots h.slot⟩) := by
  refine ⟨?_, ?_, ?_⟩
  · intro e te hm hmt
    cases hf : (livePairs s).find? (fun p => decide (h ∈ refsOf p.2)) with
    | none =>
      exfalso
      have hnm := List.find?_eq_none.mp hf (e, .tableEntry te)
        ((mem_liveEntries s e te).mp hm)
      refine hnm ?_
      simp [refsOf, hmt]
    | some p =>
      refine ⟨p.1, p.2, ?_, List.mem_of_find?_eq_some hf,
        by simpa using List.find?_some hf⟩
      simp [destroy, hl, hf]
  · intro hno
    have hf : (livePairs s).find? (fun p => decide (h ∈ refsOf p.2)) =
        none := by
      rw [List.find?_eq_none]
      intro p hp
      simpa using hno p hp
    simp [destroy, hl, hf]
  · intro e te s2 hm hmt huniq hde
    obtain ⟨hs2, -, -⟩ := destroy_ok_inv s e s2 hde
    subst hs2
    have hge : get s e = .ok (.tableEntry te) :=
      (get_ok_iff_mem s e (.tableEntry te)).mpr
        ((mem_liveEntries s e te).mp hm)
    have hslot : h.slot ≠ e.slot := by
      intro heqs
      obtain ⟨sl1, a1, a2, a3, a4⟩ := (get_ok_iff s h (.trap t)).mp hl
      obtain ⟨sl2, b1, b2, b3, b4⟩ :=
        (get_ok_iff s e (.tableEntry te)).mp hge
      rw [heqs, b1] at a1
      have hsleq : sl2 = sl1 := Option.some.inj a1
      rw [hsleq, a2] at b2
      have := Option.some.inj b2
      exact Obj.noConfusion this
    have hl2 : get ⟨destroySlots s.slots e.slot⟩ h = .ok (.trap t) := by
      rw [get_destroy_ne s e.slot h hslot]
      exact hl
    have hnone : ∀ p ∈ livePairs (⟨destroySlots s.slots e.slot⟩ : State),
        h ∉ refsOf p.2 := by
      intro p hp href
      obtain ⟨ph, pob⟩ := p
      have hq := livePairs_destroy_cases s e.slot ph pob hp
      have hpe : ph = e := huniq (ph, pob) hq.1 href
      exact hq.2 (by rw [hpe])
    have hf : (livePairs (⟨destroySlots s.slots e.slot⟩ : State)).find?
        (fun p => decide (h ∈ refsOf p.2)) = none := by
      rw [List.find?_eq_none]
      intro p hp
      simpa using hnone p hp
    simp [destroy, hl2, hf]

/-- Witness for C4: removing the demo trap referenced by two entries is
blocked as InUse by a live referencing object, and removing the trap
referenced only by the trap-id entry succeeds right after that entry is
removed. -/
theorem trap_remove_in_use_witness :
    (∃ b ob, destroy demoState demoTrapX = .error (.InUse b) ∧
      (b, ob) ∈ livePairs demoState ∧ demoTrapX ∈ refsOf ob) ∧
    destroy (State.mk (destroySlots demoState.slots demoEZ.slot))
        demoTrapZ =
      .ok ⟨destroySlots
        (destroySlots demoState.slots demoEZ.slot) demoTrapZ.slot⟩ := by
  have HX := trap_remove_in_use demoState demoTrapX ⟨.LLDP, .TRAP, 0⟩ rfl
  have HZ := trap_remove_in_use demoState demoTrapZ ⟨.IP2ME, .TRAP, 0⟩ rfl
  refine ⟨HX.1 demoE1 ⟨.PORT, some demoPortA, some demoTrapX, .CB, none⟩
    (by decide) rfl, ?_⟩
  exact HZ.2.2 demoEZ ⟨.TRAP_ID, none, some demoTrapZ, .CB, none⟩ _
    (by decide) rfl (by decide) rfl

/-- Claim C1: Resolve applies the fixed precedence, most specific first — the
unique port/lag/vlan entry matching both attachment point and trap exactly
is returned when one exists; otherwise the unique trap_id entry matching
the trap is returned regardless of attachment point; otherwise the unique
wildcard entry is returned; and with no applicable entry Resolve returns
NoMatch (none). -/
theorem resolve_precedence (s : State) (ap tr : Handle) :
    (∀ h : Handle,
      (∃ p ∈ liveEntries s, p.1 = h ∧ specificMatchB p.2 ap tr = true) →
      (∀ p ∈ liveEntries s, specificMatchB p.2 ap tr = true → p.1 = h) →
      resolve s ap tr = some h) ∧
    ((∀ p ∈ liveEntries s, specificMatchB p.2 ap tr = false) →
      ∀ h : Handle,
        (∃ p ∈ liveEntries s, p.1 = h ∧ trapIdMatchB p.2 tr = true) →
        (∀ p ∈ liveEntries s, trapIdMatchB p.2 tr = true → p.1 = h) →
        resolve s ap tr = some h) ∧
    ((∀ p ∈ liveEntries s, specificMatchB p.2 ap tr = false) →
      (∀ p ∈ liveEntries s, trapIdMatchB p.2 tr = false) →
      ∀ h : Handle,
        (∃ p ∈ liveEntries s, p.1 = h ∧ p.2.entry_type = .WILDCARD) →
        (∀ p ∈ liveEntries s, p.2.entry_type = .WILDCARD → p.1 = h) →
        resolve s ap tr = some h) ∧
    ((∀ p ∈ liveEntries s, specificMatchB p.2 ap tr = false) →
      (∀ p ∈ liveEntries s, trapIdMatchB p.2 tr = false) →
      (∀ p ∈ liveEntries s, p.2.entry_type ≠ .WILDCARD) →
      resolve s ap tr = none) := by
  have hnone1 : (∀ p ∈ liveEntries s, specificMatchB p.2 ap tr = false) →
      (liveEntries s).find? (fun p => specificMatchB p.2 ap tr) = none := by
    intro hno
    rw [List.find?_eq_none]
    intro p hp
    simp [hno p hp]
  have hnone2 : (∀ p ∈ liveEntries s, trapIdMatchB p.2 tr = false) →
      (liveEntries s).find? (fun p => trapIdMatchB p.2 tr) = none := by
    intro hno
    rw [List.find?_eq_none]
    intro p hp
    simp [hno p hp]
  have hnone3 : (∀ p ∈ liveEntries s, p.2.entry_type ≠ .WILDCARD) →
      (liveEntries s).find?
        (fun p => decide (p.2.entry_type = .WILDCARD)) = none := by
    intro hno
    rw [List.find?_eq_none]
    intro p hp
    simp [hno p hp]
  refine ⟨?_, ?_, ?_, ?_⟩
  · rintro h ⟨p0, hp0, hph, hpq⟩ huniq
    cases hf : (liveEntries s).find? (fun p => specificMatchB p.2 ap tr) with
    | none =>
      exfalso
      have := List.find?_eq_none.mp hf p0 hp0
      simp [hpq] at this
    | some p =>
      have hq : specificMatchB p.2 ap tr = true := by
        simpa using List.find?_some hf
      have hmem := List.mem_of_find?_eq_some hf
      have hph2 : p.1 = h := huniq p hmem hq
      simp [resolve, hf, hph2]
  · rintro hno1 h ⟨p0, hp0, hph, hpq⟩ huniq
    cases hf : (liveEntries s).find? (fun p => trapIdMatchB p.2 tr) with
    | none =>
      exfalso
      have := List.find?_eq_none.mp hf p0 hp0
      simp [hpq] at this
    | some p =>
      have hq : trapIdMatchB p.2 tr = true := by
        simpa using List.find?_some hf
      have hmem := List.mem_of_find?_eq_some hf
      have hph2 : p.1 = h := huniq p hmem hq
      simp [resolve, hnone1 hno1, hf, hph2]
  · rintro hno1 hno2 h ⟨p0, hp0, hph, hpq⟩ huniq
    cases hf : (liveEntries s).find?
        (fun p => decide (p.2.entry_type = .WILDCARD)) with
    | none =>
      exfalso
      have := List.find?_eq_none.mp hf p0 hp0
      simp [hpq] at this
    | some p =>
      have hq : p.2.entry_type = .WILDCARD := by
        simpa using List.find?_some hf
      have hmem := List.mem_of_find?_eq_some hf
      have hph2 : p.1 = h := huniq p hmem hq
      simp [resolve, hnone1 hno1, hnone2 hno2, hf, hph2]
  · intro hno1 hno2 hno3
    simp [resolve, hnone1 hno1, hnone2 hno2, hnone3 hno3]

/-- Witness for C1, the scenario of the claim: with a port entry E1 for
(portA, trapX), a trap_id entry E2 for trapX and a wildcard entry E3,
Resolve(portA, trapX) = E1, Resolve(portB, trapX) = E2,
Resolve(portB, trapY) = E3, and in an empty table Resolve is NoMatch. -/
theorem resolve_precedence_witness :
    resolve demoState demoPortA demoTrapX = some demoE1 ∧
    resolve demoState demoPortB demoTrapX = some demoE2 ∧
    resolve demoState demoPortB demoTrapY = some demoE3 ∧
    resolve ⟨[]⟩ demoPortB demoTrapX = none := by
  refine ⟨(resolve_precedence demoState demoPortA demoTrapX).1 demoE1
      (by decide) (by decide),
    (resolve_precedence demoState demoPortB demoTrapX).2.1 (by decide)
      demoE2 (by decide) (by decide),
    (resolve_precedence demoState demoPortB demoTrapY).2.2.1 (by decide)
      (by decide) demoE3 (by decide) (by decide),
    (resolve_precedence ⟨[]⟩ demoPortB demoTrapX).2.2.2 (by decide)
      (by decide) (by decide)⟩

end SAI
